import Mathlib

/-!
Verification development for the head-tracking control core of the
BuddyLLMAI robot: a shallow embedding, in Lean 4, of
`Buddy_VersionflxV18/ReflexiveControl.h` (reflexive pan/tilt servo control:
AdaptivePID, GentleTrajectory, the LOST/ACQUIRE/TRACK and
NORMAL/BLIND_MOVING/GENTLE_SETTLING state machines, stale-data detection)
and of `Buddy_esp32_cam_V18_debug/HistogramTracker.h` (multi-region
colour-histogram re-identification: signature building, coarse-to-fine
search, quality monitoring).

Modelling conventions, applied uniformly:
* C++ `float`/`double` values are modelled as exact rationals (`ℚ`);
  `int` values as `ℤ`; `unsigned long` millisecond timestamps as `ℕ`.
* `millis()` is an input: every operation that reads the clock takes an
  explicit `now : ℕ` argument.  Timestamps are assumed monotone and free of
  32-bit wrap-around (the hardware wraps after 49.7 days).
* The C library `sqrt` has no exact rational counterpart, so the embedding
  is parametric in a square-root routine `fsqrt : ℚ → ℚ`; universally
  quantified theorems hold for every choice of `fsqrt`, and concrete runs
  instantiate it with a function that is exact on the perfect squares the
  run actually reaches.
* `constrain(a, lo, hi)` is the Arduino macro
  `(a < lo ? lo : (a > hi ? hi : a))`; float-to-int conversion truncates
  toward zero (C++ semantics); `/` on C ints truncates toward zero.
* `Serial` debug printing and the function-local `static` debug-throttle
  timers it uses are omitted: they affect no modelled state.  The
  function-local `static unsigned long lastCheck` of `checkTimeout` is
  persistent program state and is modelled as an explicit field.
-/

/-- C/C++ signed-integer division: truncation toward zero. -/
def tdivZ (a b : ℤ) : ℤ :=
  if (0 ≤ a) = (0 ≤ b) then ((a.natAbs / b.natAbs : ℕ) : ℤ)
  else -((a.natAbs / b.natAbs : ℕ) : ℤ)

/-- C/C++ float-to-int conversion: truncation toward zero. -/
def truncQ (q : ℚ) : ℤ := if q < 0 then ⌈q⌉ else ⌊q⌋

/-- Arduino `constrain` macro on floats: `(a<lo) ? lo : ((a>hi) ? hi : a)`. -/
def constrainQ (a lo hi : ℚ) : ℚ := if a < lo then lo else if a > hi then hi else a

/-- Arduino `constrain` macro on ints. -/
def constrainZ (a lo hi : ℤ) : ℤ := if a < lo then lo else if a > hi then hi else a

/-- Coordinates visited by the C loop `for (i = start; i < stop; i += step)`
for a positive `step`, in execution order. -/
def stepRange (start stop : ℤ) (step : ℕ) : List ℤ :=
  (List.range (((stop - start).toNat + (step - 1)) / step)).map
    (fun i => start + (step : ℤ) * (i : ℤ))

theorem truncQ_nonneg_le {q : ℚ} {hi : ℤ} (h0 : 0 ≤ q) (h : q ≤ (hi : ℚ)) :
    truncQ q ≤ hi := by
  rw [truncQ, if_neg (not_lt.mpr h0)]
  have := Int.floor_le_floor h
  rwa [Int.floor_intCast] at this

theorem truncQ_ge {q : ℚ} {lo : ℤ} (h0 : 0 ≤ lo) (h : (lo : ℚ) ≤ q) :
    lo ≤ truncQ q := by
  have hq : 0 ≤ q := le_trans (by exact_mod_cast h0) h
  rw [truncQ, if_neg (not_lt.mpr hq)]
  exact Int.le_floor.mpr h

theorem constrainQ_ge {a : ℚ} {lo hi : ℚ} (h : lo ≤ hi) : lo ≤ constrainQ a lo hi := by
  unfold constrainQ
  split
  · exact le_refl lo
  · split
    · exact h
    · next h1 _ => exact not_lt.mp h1

theorem constrainQ_le {a : ℚ} {lo hi : ℚ} (h : lo ≤ hi) : constrainQ a lo hi ≤ hi := by
  unfold constrainQ
  split
  · exact h
  · split
    · exact le_refl hi
    · next _ h2 => exact not_lt.mp h2

namespace Reflex

/-! ## Configuration constants of ReflexiveControl.h -/

def CAMERA_CENTER_X : ℤ := 120
def CAMERA_CENTER_Y : ℤ := 120
def CAMERA_FRAME_WIDTH : ℤ := 240
def CAMERA_FRAME_HEIGHT : ℤ := 240

def BASE_MIN : ℤ := 10
def BASE_MAX : ℤ := 170
def BASE_CENTER : ℤ := 90
def NOD_MIN : ℤ := 80
def NOD_MAX : ℤ := 150
def NOD_CENTER : ℤ := 115

def REFLEX_UPDATE_RATE_MS : ℕ := 20

def ACQUIRE_THRESHOLD : ℤ := 20
def FRAMES_TO_ACQUIRE : ℤ := 1
def FRAMES_TO_TRACK : ℤ := 2
def FRAMES_TO_LOST : ℤ := 10

def RETURN_TO_CENTER_TIMEOUT_MS : ℕ := 1500
def BLIND_IGNORE_FRAMES : ℤ := 5
def SETTLING_FRAMES : ℤ := 10
def SETTLING_GAIN_SCALE : ℚ := 3/10

def MAX_VELOCITY_PER_FRAME : ℚ := 6
def SMOOTHING_FACTOR : ℚ := 1/2
def REFERENCE_FACE_WIDTH : ℚ := 55

def STALE_DATA_THRESHOLD : ℤ := 3
def STALE_DATA_TIMEOUT_MS : ℕ := 300
def STALE_DATA_MAX_COUNT : ℤ := 5

def CONTROL_DT : ℚ := 2/100

/-! ## AdaptivePID -/

def LARGE_ERROR_KP : ℚ := 11/100
def LARGE_ERROR_KD : ℚ := 4/1000
def MEDIUM_ERROR_KP : ℚ := 9/100
def MEDIUM_ERROR_KD : ℚ := 3/1000
def BALANCED_KP : ℚ := 7/100
def BALANCED_KD : ℚ := 25/10000
def PRECISE_KP : ℚ := 5/100
def PRECISE_KD : ℚ := 15/10000

/-- Mutable state of one `AdaptivePID` instance (per-axis controller). -/
structure APID where
  Kp : ℚ
  Ki : ℚ
  Kd : ℚ
  integral : ℚ
  prev_error : ℚ
  max_integral : ℚ
  deriving DecidableEq

/-- AdaptivePID::reset. -/
def pidReset (p : APID) : APID := { p with integral := 0, prev_error := 0 }

/-- AdaptivePID constructor. -/
def pidInit : APID :=
  pidReset { Kp := BALANCED_KP, Ki := 12/1000, Kd := BALANCED_KD,
             integral := 0, prev_error := 0, max_integral := 15 }

/-- AdaptivePID::updateGains: selects one of four gain sets by error
magnitude, then multiplies Kp and Kd by the motion scale. -/
def pidUpdateGains (p : APID) (error motionScale : ℚ) : APID :=
  let absError := |error|
  let p :=
    if absError > 50 then { p with Kp := LARGE_ERROR_KP, Kd := LARGE_ERROR_KD }
    else if absError > 30 then { p with Kp := MEDIUM_ERROR_KP, Kd := MEDIUM_ERROR_KD }
    else if absError > 15 then { p with Kp := BALANCED_KP, Kd := BALANCED_KD }
    else { p with Kp := PRECISE_KP, Kd := PRECISE_KD }
  { p with Kp := p.Kp * motionScale, Kd := p.Kd * motionScale }

/-- AdaptivePID::update: returns the output together with the updated
controller state. -/
def pidUpdate (p : APID) (error dt : ℚ) : ℚ × APID :=
  let derivative := (error - p.prev_error) / dt
  let integral := p.integral + p.Ki * error * dt
  let integral := constrainQ integral (-p.max_integral) p.max_integral
  let output := p.Kp * error + integral + p.Kd * derivative
  (output, { p with integral := integral, prev_error := error })

/-! ## GentleTrajectory -/

/-- State of the GentleTrajectory planner. -/
structure Traj where
  active : Bool
  startPan : ℚ
  startTilt : ℚ
  targetPan : ℚ
  targetTilt : ℚ
  currentStep : ℚ
  totalSteps : ℚ
  deriving DecidableEq

/-- GentleTrajectory constructor (startPan etc. are uninitialised in C++;
they are first written by planReturnToCenter before any read, so zero
initialisation is observationally equivalent). -/
def trajInit : Traj :=
  { active := false, startPan := 0, startTilt := 0, targetPan := 0,
    targetTilt := 0, currentStep := 0, totalSteps := 0 }

/-- GentleTrajectory::planReturnToCenter.  `pow(x, 2)` is `x * x`. -/
def trajPlanReturnToCenter (fsqrt : ℚ → ℚ) (fromPan fromTilt : ℚ) : Traj :=
  let targetPan : ℚ := (BASE_CENTER : ℚ)
  let targetTilt : ℚ := (NOD_CENTER : ℚ)
  let distance := fsqrt ((targetPan - fromPan) * (targetPan - fromPan) +
                         (targetTilt - fromTilt) * (targetTilt - fromTilt))
  let durationSeconds := distance / 60
  let durationSeconds := constrainQ durationSeconds (3/10) (15/10)
  { active := true, startPan := fromPan, startTilt := fromTilt,
    targetPan := targetPan, targetTilt := targetTilt,
    currentStep := 0, totalSteps := durationSeconds * 50 }

/-- GentleTrajectory::getNextPosition: returns the next interpolated
(pan, tilt) pair, or none when inactive or exhausted, plus the new state. -/
def trajGetNextPosition (tr : Traj) : Option (ℚ × ℚ) × Traj :=
  if tr.active = false then (none, tr)
  else if tr.currentStep ≥ tr.totalSteps then (none, { tr with active := false })
  else
    let t := tr.currentStep / tr.totalSteps
    let smoothT := if t < 1/2 then 2 * t * t
                   else 1 - ((-2) * t + 2) * ((-2) * t + 2) / 2
    let pan := tr.startPan + (tr.targetPan - tr.startPan) * smoothT
    let tilt := tr.startTilt + (tr.targetTilt - tr.startTilt) * smoothT
    (some (pan, tilt), { tr with currentStep := tr.currentStep + 1 })

/-! ## State machines and the reflex state -/

inductive ControlState where
  | LOST
  | ACQUIRE
  | TRACK
  deriving DecidableEq

inductive BlindState where
  | NORMAL
  | BLIND_MOVING
  | GENTLE_SETTLING
  deriving DecidableEq

/-- The `ReflexState` struct together with the private members of
`ReflexiveControl` (the two PID instances, the trajectory, the timing
fields, and the `static` timer local to checkTimeout). -/
structure RC where
  active : Bool
  shouldBeActive : Bool
  controlState : ControlState
  blindState : BlindState
  faceX : ℤ
  faceY : ℤ
  faceVX : ℤ
  faceVY : ℤ
  faceSize : ℤ
  faceConfidence : ℤ
  faceDistance : ℤ
  lastFaceTime : ℕ
  prevFaceX : ℤ
  prevFaceY : ℤ
  lastChangeTime : ℕ
  staleDataCount : ℤ
  dataIsStale : Bool
  framesTracked : ℤ
  framesLost : ℤ
  blindFrameCounter : ℤ
  oscillationCount : ℤ
  panAngle : ℚ
  tiltAngle : ℚ
  targetBase : ℤ
  targetNod : ℤ
  trackingQuality : ℚ
  errorMagnitude : ℚ
  prevErrorMagnitude : ℚ
  isSettled : Bool
  updateCount : ℤ
  errorX : ℤ
  errorY : ℤ
  adjustBase : ℤ
  adjustNod : ℤ
  currentGain : ℚ
  panPID : APID
  tiltPID : APID
  trajectory : Traj
  lastUpdateTime : ℕ
  lastServoSendTime : ℕ
  isReturningToCenter : Bool
  lastFaceX : ℤ
  lastFaceY : ℤ
  lastVelocityTime : ℕ
  checkTimeoutLastCheck : ℕ

/-- ReflexiveControl::reset (also the constructor). -/
def rcReset : RC :=
  { active := false, shouldBeActive := false,
    controlState := ControlState.LOST, blindState := BlindState.NORMAL,
    faceX := CAMERA_CENTER_X, faceY := CAMERA_CENTER_Y,
    faceVX := 0, faceVY := 0, faceSize := 0, faceConfidence := 0,
    faceDistance := 100, lastFaceTime := 0,
    prevFaceX := CAMERA_CENTER_X, prevFaceY := CAMERA_CENTER_Y,
    lastChangeTime := 0, staleDataCount := 0, dataIsStale := false,
    framesTracked := 0, framesLost := 0, blindFrameCounter := 0,
    oscillationCount := 0,
    panAngle := (BASE_CENTER : ℚ), tiltAngle := (NOD_CENTER : ℚ),
    targetBase := BASE_CENTER, targetNod := NOD_CENTER,
    trackingQuality := 0, errorMagnitude := 0, prevErrorMagnitude := 0,
    isSettled := false, updateCount := 0, errorX := 0, errorY := 0,
    adjustBase := 0, adjustNod := 0, currentGain := 11/100,
    panPID := pidInit, tiltPID := pidInit, trajectory := trajInit,
    lastUpdateTime := 0, lastServoSendTime := 0, isReturningToCenter := false,
    lastFaceX := CAMERA_CENTER_X, lastFaceY := CAMERA_CENTER_Y,
    lastVelocityTime := 0, checkTimeoutLastCheck := 0 }

/-- ReflexiveControl::enable. -/
def enable (st : RC) : RC :=
  let st := { st with shouldBeActive := true }
  if st.active = false then { st with active := true } else st

/-- ReflexiveControl::disable. -/
def disable (st : RC) : RC :=
  let st := { st with shouldBeActive := false }
  if st.active then { st with active := false, isSettled := false } else st

/-- ReflexiveControl::faceLost. -/
def faceLost (st : RC) : RC :=
  if st.active then { st with active := false, isSettled := false } else st

/-- ReflexiveControl::checkTimeout (the function-local static `lastCheck`
is the field checkTimeoutLastCheck). -/
def checkTimeout (now : ℕ) (st : RC) : RC :=
  if st.active = false then st
  else if now - st.checkTimeoutLastCheck < 500 then st
  else
    let st := { st with checkTimeoutLastCheck := now }
    if st.lastFaceTime > 0 then
      if now - st.lastFaceTime > 2000 then { st with active := false } else st
    else st

/-- ReflexiveControl::updateConfidence. -/
def updateConfidence (confidence : ℤ) (st : RC) : RC :=
  { st with faceConfidence := constrainZ confidence 0 100 }

/-- The tail of updateFaceData shared by the fresh-data path and the
not-yet-stale path: velocity derivation, storing the report, and
conditional re-enabling. -/
def updateFaceDataStore (x y size distance : ℤ) (now : ℕ) (st : RC) : RC :=
  let vel : ℤ × ℤ :=
    if st.lastVelocityTime > 0 then
      let dt : ℚ := ((now - st.lastVelocityTime : ℕ) : ℚ) / 1000
      if dt > 1/1000 ∧ dt < 1/2 then
        let vx := truncQ (((x - st.lastFaceX : ℤ) : ℚ) / dt)
        let vy := truncQ (((y - st.lastFaceY : ℤ) : ℚ) / dt)
        (constrainZ vx (-200) 200, constrainZ vy (-200) 200)
      else (st.faceVX, st.faceVY)
    else (st.faceVX, st.faceVY)
  let st := { st with
    faceVX := vel.1, faceVY := vel.2,
    lastFaceX := x, lastFaceY := y, lastVelocityTime := now,
    faceX := x, faceY := y, faceSize := size,
    faceDistance := distance, lastFaceTime := now }
  let st := if st.faceConfidence = 0 then { st with faceConfidence := 100 } else st
  if st.shouldBeActive ∧ st.active = false ∧ st.dataIsStale = false then
    { st with active := true }
  else st

/-- ReflexiveControl::updateFaceData. -/
def updateFaceData (x y size distance : ℤ) (now : ℕ) (st : RC) : RC :=
  let x := constrainZ x 0 CAMERA_FRAME_WIDTH
  let y := constrainZ y 0 CAMERA_FRAME_HEIGHT
  let deltaX := |x - st.prevFaceX|
  let deltaY := |y - st.prevFaceY|
  let totalChange := deltaX + deltaY
  if totalChange ≥ STALE_DATA_THRESHOLD then
    let st := { st with prevFaceX := x, prevFaceY := y, lastChangeTime := now,
                        staleDataCount := 0, dataIsStale := false }
    updateFaceDataStore x y size distance now st
  else
    let st := { st with staleDataCount := st.staleDataCount + 1 }
    let timeSinceChange := now - st.lastChangeTime
    if timeSinceChange > STALE_DATA_TIMEOUT_MS ∨
        st.staleDataCount > STALE_DATA_MAX_COUNT then
      let st := { st with dataIsStale := true }
      if st.active then { st with active := false } else st
    else
      updateFaceDataStore x y size distance now st

set_option maxHeartbeats 1600000

/-- ReflexiveControl::updatePredictiveTracking (the control step shared by
the ACQUIRE and TRACK states). -/
def updatePredictiveTracking (fsqrt : ℚ → ℚ) (st : RC) : RC :=
  let errorX : ℚ := ((st.faceX - CAMERA_CENTER_X : ℤ) : ℚ)
  let errorY : ℚ := ((st.faceY - CAMERA_CENTER_Y : ℤ) : ℚ)
  -- adaptive deadband, applied only in TRACK
  let deadband : ℤ :=
    12 + truncQ ((1 - (st.faceConfidence : ℚ) / 100) * 8)
  let errorX := if st.controlState = ControlState.TRACK ∧ |errorX| < (deadband : ℚ)
                then 0 else errorX
  let errorY := if st.controlState = ControlState.TRACK ∧ |errorY| < (deadband : ℚ)
                then 0 else errorY
  let totalError := fsqrt (errorX * errorX + errorY * errorY)
  -- confidence-based motion scaling
  let motionScale : ℚ := 1
  let confidenceScale := 4/10 + ((st.faceConfidence : ℚ) / 100) * (6/10)
  let motionScale := motionScale * confidenceScale
  let motionScale := if st.blindState = BlindState.GENTLE_SETTLING
                     then motionScale * SETTLING_GAIN_SCALE else motionScale
  let faceSpeed := fsqrt (((st.faceVX * st.faceVX + st.faceVY * st.faceVY : ℤ) : ℚ))
  let motionScale := if faceSpeed < 5 ∧ totalError > 40
                     then motionScale * (6/10) else motionScale
  let motionScale := if st.faceSize > 0
                     then motionScale *
                       constrainQ ((st.faceSize : ℚ) / REFERENCE_FACE_WIDTH) (7/10) (12/10)
                     else motionScale
  -- adaptive PID
  let panPID := pidUpdateGains st.panPID totalError motionScale
  let tiltPID := pidUpdateGains st.tiltPID totalError motionScale
  let panRes := pidUpdate panPID (errorX * (1/10)) CONTROL_DT
  let tiltRes := pidUpdate tiltPID (errorY * (1/10)) CONTROL_DT
  -- velocity limiting
  let panCommand := constrainQ panRes.1 (-MAX_VELOCITY_PER_FRAME) MAX_VELOCITY_PER_FRAME
  let tiltCommand := constrainQ tiltRes.1 (-MAX_VELOCITY_PER_FRAME) MAX_VELOCITY_PER_FRAME
  -- oscillation detection
  let errorDelta := |totalError - st.prevErrorMagnitude|
  let oscCount :=
    if errorDelta > 10 ∧ totalError < 30 then st.oscillationCount + 1
    else if st.oscillationCount > 0 then st.oscillationCount - 1
    else st.oscillationCount
  { st with
    errorX := truncQ errorX, errorY := truncQ errorY,
    errorMagnitude := totalError,
    panPID := panRes.2, tiltPID := tiltRes.2,
    -- application with smoothing
    panAngle := st.panAngle + panCommand * SMOOTHING_FACTOR,
    tiltAngle := st.tiltAngle + tiltCommand * SMOOTHING_FACTOR,
    adjustBase := truncQ (panCommand * SMOOTHING_FACTOR),
    adjustNod := truncQ (tiltCommand * SMOOTHING_FACTOR),
    currentGain := panRes.2.Kp,
    oscillationCount := constrainZ oscCount 0 10,
    prevErrorMagnitude := totalError,
    trackingQuality := constrainQ (1 - totalError / 120) 0 1,
    isSettled := decide (totalError < 10) }

/-- The pan-axis velocity command of one updatePredictiveTracking step,
after the velocity-limiting constrain: the quantity whose smoothed product
with SMOOTHING_FACTOR is added to the running panAngle.  It repeats the
corresponding let-chain of updatePredictiveTracking verbatim; the
definitional equality is recorded next to claim C2. -/
def panVelocityCommand (fsqrt : ℚ → ℚ) (st : RC) : ℚ :=
  let errorX : ℚ := ((st.faceX - CAMERA_CENTER_X : ℤ) : ℚ)
  let errorY : ℚ := ((st.faceY - CAMERA_CENTER_Y : ℤ) : ℚ)
  let deadband : ℤ :=
    12 + truncQ ((1 - (st.faceConfidence : ℚ) / 100) * 8)
  let errorX := if st.controlState = ControlState.TRACK ∧ |errorX| < (deadband : ℚ)
                then 0 else errorX
  let errorY := if st.controlState = ControlState.TRACK ∧ |errorY| < (deadband : ℚ)
                then 0 else errorY
  let totalError := fsqrt (errorX * errorX + errorY * errorY)
  let motionScale : ℚ := 1
  let confidenceScale := 4/10 + ((st.faceConfidence : ℚ) / 100) * (6/10)
  let motionScale := motionScale * confidenceScale
  let motionScale := if st.blindState = BlindState.GENTLE_SETTLING
                     then motionScale * SETTLING_GAIN_SCALE else motionScale
  let faceSpeed := fsqrt (((st.faceVX * st.faceVX + st.faceVY * st.faceVY : ℤ) : ℚ))
  let motionScale := if faceSpeed < 5 ∧ totalError > 40
                     then motionScale * (6/10) else motionScale
  let motionScale := if st.faceSize > 0
                     then motionScale *
                       constrainQ ((st.faceSize : ℚ) / REFERENCE_FACE_WIDTH) (7/10) (12/10)
                     else motionScale
  let panPID := pidUpdateGains st.panPID totalError motionScale
  let panRes := pidUpdate panPID (errorX * (1/10)) CONTROL_DT
  constrainQ panRes.1 (-MAX_VELOCITY_PER_FRAME) MAX_VELOCITY_PER_FRAME

/-- The tilt-axis velocity command of one updatePredictiveTracking step,
after the velocity-limiting constrain. -/
def tiltVelocityCommand (fsqrt : ℚ → ℚ) (st : RC) : ℚ :=
  let errorX : ℚ := ((st.faceX - CAMERA_CENTER_X : ℤ) : ℚ)
  let errorY : ℚ := ((st.faceY - CAMERA_CENTER_Y : ℤ) : ℚ)
  let deadband : ℤ :=
    12 + truncQ ((1 - (st.faceConfidence : ℚ) / 100) * 8)
  let errorX := if st.controlState = ControlState.TRACK ∧ |errorX| < (deadband : ℚ)
                then 0 else errorX
  let errorY := if st.controlState = ControlState.TRACK ∧ |errorY| < (deadband : ℚ)
                then 0 else errorY
  let totalError := fsqrt (errorX * errorX + errorY * errorY)
  let motionScale : ℚ := 1
  let confidenceScale := 4/10 + ((st.faceConfidence : ℚ) / 100) * (6/10)
  let motionScale := motionScale * confidenceScale
  let motionScale := if st.blindState = BlindState.GENTLE_SETTLING
                     then motionScale * SETTLING_GAIN_SCALE else motionScale
  let faceSpeed := fsqrt (((st.faceVX * st.faceVX + st.faceVY * st.faceVY : ℤ) : ℚ))
  let motionScale := if faceSpeed < 5 ∧ totalError > 40
                     then motionScale * (6/10) else motionScale
  let motionScale := if st.faceSize > 0
                     then motionScale *
                       constrainQ ((st.faceSize : ℚ) / REFERENCE_FACE_WIDTH) (7/10) (12/10)
                     else motionScale
  let tiltPID := pidUpdateGains st.tiltPID totalError motionScale
  let tiltRes := pidUpdate tiltPID (errorY * (1/10)) CONTROL_DT
  constrainQ tiltRes.1 (-MAX_VELOCITY_PER_FRAME) MAX_VELOCITY_PER_FRAME

/-- ReflexiveControl::updateLost. -/
def updateLost (fsqrt : ℚ → ℚ) (now : ℕ) (st : RC) : RC :=
  let timeLost : ℕ := now - st.lastFaceTime
  if timeLost < 1000 then
    let predictX : ℚ := (st.faceX : ℚ) + (st.faceVX : ℚ) * ((timeLost : ℚ) / 1000)
    let predictY : ℚ := (st.faceY : ℚ) + (st.faceVY : ℚ) * ((timeLost : ℚ) / 1000)
    let errorX := predictX - (CAMERA_CENTER_X : ℚ)
    let errorY := predictY - (CAMERA_CENTER_Y : ℚ)
    { st with panAngle := st.panAngle + errorX * (1/100),
              tiltAngle := st.tiltAngle + errorY * (1/100),
              blindState := BlindState.NORMAL,
              isReturningToCenter := false }
  else if timeLost ≥ RETURN_TO_CENTER_TIMEOUT_MS then
    let st :=
      if st.isReturningToCenter = false then
        { st with isReturningToCenter := true,
                  blindState := BlindState.BLIND_MOVING,
                  blindFrameCounter := 0,
                  trajectory := trajPlanReturnToCenter fsqrt st.panAngle st.tiltAngle }
      else st
    let next := trajGetNextPosition st.trajectory
    let st := { st with trajectory := next.2 }
    match next.1 with
    | some (trajPan, trajTilt) => { st with panAngle := trajPan, tiltAngle := trajTilt }
    | none => st
  else
    { st with blindState := BlindState.NORMAL, isReturningToCenter := false }

/-- Result of one ReflexiveControl::calculate call: the two out-parameters
and the boolean return value. -/
structure CalcOut where
  baseOut : ℤ
  nodOut : ℤ
  ret : Bool
  deriving DecidableEq

/-- The blind state machine block at the head of ReflexiveControl::calculate
(run after the throttle and the panAngle/tiltAngle refresh).  A `some`
result is the early return taken while BLIND_MOVING. -/
def blindStateStep (st : RC) : Option CalcOut × RC :=
  if st.blindState ≠ BlindState.NORMAL then
    let st := { st with blindFrameCounter := st.blindFrameCounter + 1 }
    let moving : Option CalcOut × RC :=
      if st.blindState = BlindState.BLIND_MOVING then
        if st.blindFrameCounter ≤ BLIND_IGNORE_FRAMES then
          let next := trajGetNextPosition st.trajectory
          let angles : ℚ × ℚ :=
            match next.1 with
            | some (trajPan, trajTilt) => (trajPan, trajTilt)
            | none => (st.panAngle, st.tiltAngle)
          let st := { st with
            trajectory := next.2,
            panAngle := angles.1, tiltAngle := angles.2,
            targetBase := truncQ (constrainQ angles.1 (BASE_MIN : ℚ) (BASE_MAX : ℚ)),
            targetNod := truncQ (constrainQ angles.2 (NOD_MIN : ℚ) (NOD_MAX : ℚ)) }
          (some { baseOut := st.targetBase, nodOut := st.targetNod, ret := true }, st)
        else
          (none, { st with blindState := BlindState.GENTLE_SETTLING,
                           blindFrameCounter := 0 })
      else (none, st)
    match moving with
    | (some out, st) => (some out, st)
    | (none, st) =>
      if st.blindState = BlindState.GENTLE_SETTLING ∧
          st.blindFrameCounter > SETTLING_FRAMES then
        (none, { st with blindState := BlindState.NORMAL, blindFrameCounter := 0,
                         isReturningToCenter := false })
      else (none, st)
  else (none, st)

/-- The LOST/ACQUIRE/TRACK state machine block of ReflexiveControl::calculate
(source lines 603-633). -/
def stateMachineStep (st : RC) : RC :=
  let faceDetected := st.active ∧ st.dataIsStale = false
  if faceDetected then
    let st := { st with framesLost := 0, framesTracked := st.framesTracked + 1 }
    if st.controlState = ControlState.LOST ∧
        st.framesTracked ≥ FRAMES_TO_ACQUIRE then
      { st with controlState := ControlState.ACQUIRE,
                trajectory := { st.trajectory with active := false } }
    else if st.controlState = ControlState.ACQUIRE ∧
        st.framesTracked ≥ FRAMES_TO_TRACK then
      let errX : ℚ := |((st.faceX - CAMERA_CENTER_X : ℤ) : ℚ)|
      let errY : ℚ := |((st.faceY - CAMERA_CENTER_Y : ℤ) : ℚ)|
      if errX < (ACQUIRE_THRESHOLD : ℚ) ∧ errY < (ACQUIRE_THRESHOLD : ℚ) then
        { st with controlState := ControlState.TRACK }
      else st
    else st
  else
    let st := { st with framesTracked := 0, framesLost := st.framesLost + 1 }
    if st.framesLost ≥ FRAMES_TO_LOST then
      if st.controlState ≠ ControlState.LOST then
        { st with controlState := ControlState.LOST,
                  blindState := BlindState.NORMAL }
      else st
    else st

/-- ReflexiveControl::calculate: the main per-tick control step. -/
def calculate (fsqrt : ℚ → ℚ) (currentBase currentNod : ℤ) (now : ℕ) (st : RC) :
    CalcOut × RC :=
  -- throttle to the 50 Hz update rate
  if now - st.lastUpdateTime < REFLEX_UPDATE_RATE_MS then
    ({ baseOut := st.targetBase, nodOut := st.targetNod, ret := st.active }, st)
  else
    let st := { st with lastUpdateTime := now,
                        panAngle := (currentBase : ℚ), tiltAngle := (currentNod : ℚ) }
    match blindStateStep st with
    | (some out, st) => (out, st)
    | (none, st) =>
      let st := stateMachineStep st
      -- control
      let st :=
        if st.controlState = ControlState.ACQUIRE ∨
            st.controlState = ControlState.TRACK then
          updatePredictiveTracking fsqrt st
        else if st.controlState = ControlState.LOST then
          updateLost fsqrt now st
        else st
      -- output
      let st := { st with
        targetBase := truncQ (constrainQ st.panAngle (BASE_MIN : ℚ) (BASE_MAX : ℚ)),
        targetNod := truncQ (constrainQ st.tiltAngle (NOD_MIN : ℚ) (NOD_MAX : ℚ)),
        updateCount := st.updateCount + 1 }
      ({ baseOut := st.targetBase, nodOut := st.targetNod, ret := true }, st)

/-! ## Call sequences over the public mutating interface -/

/-- One call to the public mutating interface of ReflexiveControl, with its
arguments (including the millisecond clock reading at call time). -/
inductive Op where
  | opEnable
  | opDisable
  | opReset
  | opFaceLost
  | opCheckTimeout (now : ℕ)
  | opUpdateConfidence (confidence : ℤ)
  | opUpdateFaceData (x y size distance : ℤ) (now : ℕ)
  | opCalculate (currentBase currentNod : ℤ) (now : ℕ)

/-- Apply one public call to the state. -/
def runOp (fsqrt : ℚ → ℚ) (st : RC) : Op → RC
  | Op.opEnable => enable st
  | Op.opDisable => disable st
  | Op.opReset => rcReset
  | Op.opFaceLost => faceLost st
  | Op.opCheckTimeout now => checkTimeout now st
  | Op.opUpdateConfidence c => updateConfidence c st
  | Op.opUpdateFaceData x y size d now => updateFaceData x y size d now st
  | Op.opCalculate b n now => (calculate fsqrt b n now st).2

/-- Run a sequence of public calls from a starting state. -/
def runOps (fsqrt : ℚ → ℚ) (ops : List Op) (st : RC) : RC :=
  ops.foldl (runOp fsqrt) st

end Reflex

namespace Hist

/-! ## Configuration constants of HistogramTracker.h -/

def SIGNATURE_MAX_AGE_MS : ℕ := 1200
def SIGNATURE_MIN_AGE_MS : ℕ := 400
def MAX_HISTOGRAM_FRAMES_GOOD : ℤ := 12
def MAX_HISTOGRAM_FRAMES_POOR : ℤ := 5

def BASE_SEARCH_RADIUS : ℤ := 50
def COARSE_STEP : ℕ := 4
def FINE_STEP : ℕ := 1
def FINE_RADIUS : ℤ := 6

def CONFIDENCE_THRESHOLD : ℚ := 52/100
def CONFIDENCE_HIGH : ℚ := 70/100
def CONFIDENCE_DROP_ALERT : ℚ := 8/100

def MIN_REGION_CONFIDENCE : ℚ := 45/100
def MIN_REGIONS_PASSING : ℤ := 2

def MIN_SKIN_PERCENTAGE : ℚ := 20/100
def SKIN_COLLAPSE_THRESHOLD : ℚ := 10/100
def SIGNATURE_SKIN_RATIO_MIN : ℚ := 28/100

def QUALITY_HISTORY_SIZE : ℤ := 5
def MAX_POSITION_JUMP : ℚ := 25

def MEAN_HUE_DRIFT_SOFT : ℚ := 12
def MEAN_HUE_DRIFT_HARD : ℚ := 30
def MEAN_SAT_DRIFT_SOFT : ℚ := 20
def MEAN_SAT_DRIFT_HARD : ℚ := 50
def MEAN_VAL_DRIFT_SOFT : ℚ := 25
def MEAN_VAL_DRIFT_HARD : ℚ := 60

def MIN_COHERENCE_SCORE : ℚ := 42/100
def MATCH_DISTANCE_LIMIT : ℚ := 60

def SPEED_THRESHOLD_FAST : ℚ := 30
def SPEED_THRESHOLD_SLOW : ℚ := 10
def SEARCH_RADIUS_FAST : ℤ := 90
def SEARCH_RADIUS_SLOW : ℤ := 45

def SKIN_H_MIN : ℤ := 0
def SKIN_H_MAX : ℤ := 25
def SKIN_S_MIN : ℤ := 25
def SKIN_S_MAX : ℤ := 95
def SKIN_V_MIN : ℤ := 45
def SKIN_V_MAX : ℤ := 98

inductive TrackingQuality where
  | QUALITY_GOOD
  | QUALITY_MODERATE
  | QUALITY_POOR
  deriving DecidableEq

/-- An HSV colour as produced by rgb565ToHSV. -/
structure HSV where
  h : ℤ
  s : ℤ
  v : ℤ
  deriving DecidableEq

/-- A camera frame: the raw RGB565 byte buffer, one byte (`uint8_t`) per
index.  The tracker reads indices below 240*240*2 only. -/
def Frame : Type := ℕ → Fin 256

/-- HistogramTracker::rgb565ToHSV.  Bit extraction on the unsigned 16-bit
pixel is arithmetic: `(p >> k) & m` is `(p / 2^k) % (m+1)` and `<< k` is
`* 2^k`.  The divisions `(g-b)/delta` etc. are C int divisions (truncation
toward zero). -/
def rgb565ToHSV (p : ℕ) : HSV :=
  let r : ℤ := ((p / 2048) % 32 : ℕ) * 8
  let g : ℤ := ((p / 32) % 64 : ℕ) * 4
  let b : ℤ := ((p % 32 : ℕ) : ℤ) * 8
  let maxRGB := max r (max g b)
  let minRGB := min r (min g b)
  let delta := maxRGB - minRGB
  let v := tdivZ (maxRGB * 100) 255
  let s := if maxRGB = 0 then 0 else tdivZ (delta * 100) maxRGB
  let h :=
    if delta = 0 then 0
    else if maxRGB = r then
      let h0 := 30 * tdivZ (g - b) delta
      if h0 < 0 then h0 + 180 else h0
    else if maxRGB = g then 30 * (2 + tdivZ (b - r) delta)
    else 30 * (4 + tdivZ (r - g) delta)
  { h := constrainZ h 0 179, s := constrainZ s 0 100, v := constrainZ v 0 100 }

/-- HistogramTracker::getPixelHSV: bounds-checked pixel fetch.  Outside
[0,240) x [0,240) it yields h = s = v = 0 without touching the frame.  In
range, the C code reads bytes `idx` and `idx+1` with
`idx = (y*240 + x)*2` and combines them as `(frame[idx+1] << 8) | frame[idx]`;
since both bytes are below 256 the bitwise-or is addition. -/
def getPixelHSV (frame : Frame) (x y : ℤ) : HSV :=
  if x < 0 ∨ x ≥ 240 ∨ y < 0 ∨ y ≥ 240 then { h := 0, s := 0, v := 0 }
  else
    let idx := (y.toNat * 240 + x.toNat) * 2
    rgb565ToHSV ((frame (idx + 1)).val * 256 + (frame idx).val)

/-- HistogramTracker::isSkinTone. -/
def isSkinTone (c : HSV) : Bool :=
  decide (SKIN_H_MIN ≤ c.h ∧ c.h ≤ SKIN_H_MAX ∧
          SKIN_S_MIN ≤ c.s ∧ c.s ≤ SKIN_S_MAX ∧
          SKIN_V_MIN ≤ c.v ∧ c.v ≤ SKIN_V_MAX)

/-- HistogramTracker::bhattacharyyaCoefficient with 16 bins. -/
def bhattacharyyaCoefficient (fsqrt : ℚ → ℚ) (h1 h2 : Fin 16 → ℚ) : ℚ :=
  (List.finRange 16).foldl (fun sum i => sum + fsqrt (h1 i * h2 i)) 0

/-- The histogram bin for a hue value: `min((h * HIST_BINS) / 180, HIST_BINS - 1)`. -/
def hueBin (h : ℤ) : ℤ := min (tdivZ (h * 16) 180) 15

/-- The histogram bin for a saturation value. -/
def satBin (s : ℤ) : ℤ := min (tdivZ (s * 16) 100) 15

/-- Increment of one histogram bin (C `hist[bin] += amt` on a 16-slot float
array, with the bin index always in range by construction of hueBin/satBin). -/
def histBump (h : Fin 16 → ℚ) (bin : ℤ) : Fin 16 → ℚ :=
  fun i => if (i : ℤ) = bin then h i + 1 else h i

/-- Accumulator of the sampling loops shared (textually repeated) by
buildSignature and evaluateCandidate: three regional hue and saturation
histograms, regional weights, colour sums, and pixel counts. -/
structure RegionAcc where
  histTop : Fin 16 → ℚ
  histMid : Fin 16 → ℚ
  histBot : Fin 16 → ℚ
  satHistTop : Fin 16 → ℚ
  satHistMid : Fin 16 → ℚ
  satHistBot : Fin 16 → ℚ
  weightTop : ℚ
  weightMid : ℚ
  weightBot : ℚ
  sumH : ℚ
  sumS : ℚ
  sumV : ℚ
  totalPixels : ℤ
  skinPixels : ℤ

def regionAccInit : RegionAcc :=
  { histTop := fun _ => 0, histMid := fun _ => 0, histBot := fun _ => 0,
    satHistTop := fun _ => 0, satHistMid := fun _ => 0, satHistBot := fun _ => 0,
    weightTop := 0, weightMid := 0, weightBot := 0,
    sumH := 0, sumS := 0, sumV := 0, totalPixels := 0, skinPixels := 0 }

/-- One sampled pixel of the region-histogram loops: HSV fetch, skin count,
bin computation, colour sums, and regional histogram/weight update keyed on
the row position relative to topY2/midY2. -/
def regionPixelStep (frame : Frame) (topY2 midY2 : ℤ) (acc : RegionAcc) (x y : ℤ) :
    RegionAcc :=
  let c := getPixelHSV frame x y
  let hBin := hueBin c.h
  let sBin := satBin c.s
  { histTop := if y < topY2 then histBump acc.histTop hBin else acc.histTop,
    histMid := if y < topY2 then acc.histMid
               else if y < midY2 then histBump acc.histMid hBin else acc.histMid,
    histBot := if y < topY2 ∨ y < midY2 then acc.histBot else histBump acc.histBot hBin,
    satHistTop := if y < topY2 then histBump acc.satHistTop sBin else acc.satHistTop,
    satHistMid := if y < topY2 then acc.satHistMid
                  else if y < midY2 then histBump acc.satHistMid sBin else acc.satHistMid,
    satHistBot := if y < topY2 ∨ y < midY2 then acc.satHistBot
                  else histBump acc.satHistBot sBin,
    weightTop := if y < topY2 then acc.weightTop + 1 else acc.weightTop,
    weightMid := if y < topY2 then acc.weightMid
                 else if y < midY2 then acc.weightMid + 1 else acc.weightMid,
    weightBot := if y < topY2 ∨ y < midY2 then acc.weightBot else acc.weightBot + 1,
    sumH := acc.sumH + (c.h : ℚ), sumS := acc.sumS + (c.s : ℚ),
    sumV := acc.sumV + (c.v : ℚ),
    totalPixels := acc.totalPixels + 1,
    skinPixels := acc.skinPixels + (if isSkinTone c then 1 else 0) }

/-- The every-2nd-pixel sampling loop over a box split into vertical thirds
(`regionHeight = (y2-y1)/3`), exactly as in buildSignature and
evaluateCandidate (rows outer, columns inner). -/
def regionScan (frame : Frame) (x1 y1 x2 y2 : ℤ) : RegionAcc :=
  let regionHeight := tdivZ (y2 - y1) 3
  let topY2 := y1 + regionHeight
  let midY2 := topY2 + regionHeight
  (stepRange y1 y2 2).foldl
    (fun acc y =>
      (stepRange x1 x2 2).foldl (fun acc x => regionPixelStep frame topY2 midY2 acc x y) acc)
    regionAccInit

/-- Histogram normalisation: each bin divided by the weight when positive
(`if (weight > 0) for (...) hist[i] /= weight`). -/
def normHist (h : Fin 16 → ℚ) (w : ℚ) : Fin 16 → ℚ :=
  if w > 0 then fun i => h i / w else h

/-- HistogramTracker::calculateCoherence: skin-tone occupancy over an 8x8
grid; the fraction of occupied cells that have an occupied neighbour (the C
`goto nextCell` counts each occupied cell at most once). -/
def calculateCoherence (frame : Frame) (cx cy radius : ℤ) : ℚ :=
  let x1 := max 0 (cx - radius)
  let y1 := max 0 (cy - radius)
  let x2 := min 240 (cx + radius)
  let y2 := min 240 (cy + radius)
  let cellWidth := tdivZ (x2 - x1) 8
  let cellHeight := tdivZ (y2 - y1) 8
  if cellWidth ≤ 0 ∨ cellHeight ≤ 0 then 0
  else
    let scan : (ℤ → ℤ → ℤ) × ℤ :=
      (stepRange y1 y2 2).foldl
        (fun acc y =>
          (stepRange x1 x2 2).foldl
            (fun acc x =>
              let c := getPixelHSV frame x y
              if isSkinTone c then
                let cellX := min (tdivZ (x - x1) cellWidth) 7
                let cellY := min (tdivZ (y - y1) cellHeight) 7
                (fun j i => if j = cellY ∧ i = cellX then acc.1 j i + 1 else acc.1 j i,
                 acc.2 + 1)
              else acc)
            acc)
        (fun _ _ => 0, 0)
    let cellCounts := scan.1
    let totalPixels := scan.2
    if totalPixels < 10 then 0
    else
      let cells : List (ℤ × ℤ) :=
        (List.range 8).foldl
          (fun l y => l ++ (List.range 8).map (fun x => ((y : ℤ), (x : ℤ)))) []
      let occupiedCells :=
        (cells.filter (fun c => decide (cellCounts c.1 c.2 > 0))).length
      let offsets : List ℤ := [-1, 0, 1]
      let connectedClusters :=
        (cells.filter (fun c =>
          decide (cellCounts c.1 c.2 > 0) &&
          offsets.any (fun dy => offsets.any (fun dx =>
            !(decide (dx = 0 ∧ dy = 0)) &&
            decide (0 ≤ c.1 + dy ∧ c.1 + dy < 8 ∧ 0 ≤ c.2 + dx ∧ c.2 + dx < 8) &&
            decide (cellCounts (c.1 + dy) (c.2 + dx) > 0))))).length
      if occupiedCells > 0 then (connectedClusters : ℚ) / (occupiedCells : ℚ) else 0

/-- HistogramTracker::calculateTextureVariance: variance of the value
channel over a 3-pixel grid. -/
def calculateTextureVariance (frame : Frame) (cx cy radius : ℤ) : ℚ :=
  let x1 := max 0 (cx - radius)
  let y1 := max 0 (cy - radius)
  let x2 := min 240 (cx + radius)
  let y2 := min 240 (cy + radius)
  let scan : ℚ × ℚ × ℤ :=
    (stepRange y1 y2 3).foldl
      (fun acc y =>
        (stepRange x1 x2 3).foldl
          (fun acc x =>
            let c := getPixelHSV frame x y
            (acc.1 + (c.v : ℚ), acc.2.1 + (c.v : ℚ) * (c.v : ℚ), acc.2.2 + 1))
          acc)
      (0, 0, 0)
  if scan.2.2 < 2 then 0
  else
    let mean := scan.1 / (scan.2.2 : ℚ)
    scan.2.1 / (scan.2.2 : ℚ) - mean * mean

/-- The mutable state of a HistogramTracker instance.  The C member
`signatureSkinRatio` is called `signatureSkinShare` here (identifier
constraint of this development); everything else keeps its source name. -/
structure HT where
  signatureHistTop : Fin 16 → ℚ
  signatureHistMid : Fin 16 → ℚ
  signatureHistBot : Fin 16 → ℚ
  signatureSatHistTop : Fin 16 → ℚ
  signatureSatHistMid : Fin 16 → ℚ
  signatureSatHistBot : Fin 16 → ℚ
  meanHue : ℚ
  meanSat : ℚ
  meanVal : ℚ
  textureVariance : ℚ
  signatureSkinShare : ℚ
  signaturePixelCount : ℤ
  signatureValid : Bool
  centerX : ℤ
  centerY : ℤ
  searchRadius : ℤ
  signatureTime : ℕ
  histogramOnlyFrames : ℤ
  confidenceHistory : Fin 5 → ℚ
  positionHistoryX : Fin 5 → ℤ
  positionHistoryY : Fin 5 → ℤ
  historyIndex : ℤ
  historyCount : ℤ
  consecutiveStableFrames : ℤ
  consecutiveCollapses : ℤ
  lastMatchX : ℤ
  lastMatchY : ℤ
  lastConfidence : ℚ

/-- Index into the 5-slot ring buffers (the C indices are always in [0,4]
by construction; the euclidean remainder realises exactly those values). -/
def fin5 (i : ℤ) : Fin 5 := ⟨(i % 5).toNat, by omega⟩

/-- HistogramTracker::reset (also the constructor). -/
def htReset : HT :=
  { signatureHistTop := fun _ => 0, signatureHistMid := fun _ => 0,
    signatureHistBot := fun _ => 0, signatureSatHistTop := fun _ => 0,
    signatureSatHistMid := fun _ => 0, signatureSatHistBot := fun _ => 0,
    meanHue := 0, meanSat := 0, meanVal := 0,
    textureVariance := 0, signatureSkinShare := 0,
    signaturePixelCount := 0, signatureValid := false,
    centerX := 120, centerY := 120, searchRadius := BASE_SEARCH_RADIUS,
    signatureTime := 0, histogramOnlyFrames := 0,
    confidenceHistory := fun _ => 0,
    positionHistoryX := fun _ => 120, positionHistoryY := fun _ => 120,
    historyIndex := 0, historyCount := 0,
    consecutiveStableFrames := 0, consecutiveCollapses := 0,
    lastMatchX := 120, lastMatchY := 120, lastConfidence := 0 }

/-- HistogramTracker::calculateDriftPenalty. -/
def calculateDriftPenalty (st : HT) (candMeanH candMeanS candMeanV : ℚ) : ℚ :=
  let hueDiff := |candMeanH - st.meanHue|
  let satDiff := |candMeanS - st.meanSat|
  let valDiff := |candMeanV - st.meanVal|
  if hueDiff > MEAN_HUE_DRIFT_HARD ∨ satDiff > MEAN_SAT_DRIFT_HARD ∨
      valDiff > MEAN_VAL_DRIFT_HARD then 1
  else
    let huePenalty := if hueDiff > MEAN_HUE_DRIFT_SOFT then
        (hueDiff - MEAN_HUE_DRIFT_SOFT) / (MEAN_HUE_DRIFT_HARD - MEAN_HUE_DRIFT_SOFT)
      else 0
    let satPenalty := if satDiff > MEAN_SAT_DRIFT_SOFT then
        (satDiff - MEAN_SAT_DRIFT_SOFT) / (MEAN_SAT_DRIFT_HARD - MEAN_SAT_DRIFT_SOFT)
      else 0
    let valPenalty := if valDiff > MEAN_VAL_DRIFT_SOFT then
        (valDiff - MEAN_VAL_DRIFT_SOFT) / (MEAN_VAL_DRIFT_HARD - MEAN_VAL_DRIFT_SOFT)
      else 0
    4/10 * huePenalty + 3/10 * satPenalty + 3/10 * valPenalty

/-- Result of HistogramTracker::evaluateCandidate. -/
structure CandidateResult where
  confidence : ℚ
  skinPercentage : ℚ
  valid : Bool
  deriving DecidableEq

/-- HistogramTracker::evaluateCandidate: scores a 30x30 patch around a
candidate position against the stored signature. -/
def evaluateCandidate (fsqrt : ℚ → ℚ) (frame : Frame) (st : HT) (x y : ℤ) :
    CandidateResult :=
  let rx1 := max 0 (x - 15)
  let ry1 := max 0 (y - 15)
  let rx2 := min 240 (x + 15)
  let ry2 := min 240 (y + 15)
  let acc := regionScan frame rx1 ry1 rx2 ry2
  if acc.totalPixels = 0 then { confidence := 0, skinPercentage := 0, valid := false }
  else
    let skinPercentage := (acc.skinPixels : ℚ) / (acc.totalPixels : ℚ)
    if skinPercentage < MIN_SKIN_PERCENTAGE then
      { confidence := 0, skinPercentage := skinPercentage, valid := false }
    else
      let candMeanH := acc.sumH / (acc.totalPixels : ℚ)
      let candMeanS := acc.sumS / (acc.totalPixels : ℚ)
      let candMeanV := acc.sumV / (acc.totalPixels : ℚ)
      let driftPenalty := calculateDriftPenalty st candMeanH candMeanS candMeanV
      if driftPenalty ≥ 1 then
        { confidence := 0, skinPercentage := skinPercentage, valid := false }
      else
        let candHistTop := normHist acc.histTop acc.weightTop
        let candSatHistTop := normHist acc.satHistTop acc.weightTop
        let candHistMid := normHist acc.histMid acc.weightMid
        let candSatHistMid := normHist acc.satHistMid acc.weightMid
        let candHistBot := normHist acc.histBot acc.weightBot
        let candSatHistBot := normHist acc.satHistBot acc.weightBot
        let topConf := 6/10 * bhattacharyyaCoefficient fsqrt st.signatureHistTop candHistTop +
                       4/10 * bhattacharyyaCoefficient fsqrt st.signatureSatHistTop candSatHistTop
        let midConf := 6/10 * bhattacharyyaCoefficient fsqrt st.signatureHistMid candHistMid +
                       4/10 * bhattacharyyaCoefficient fsqrt st.signatureSatHistMid candSatHistMid
        let botConf := 6/10 * bhattacharyyaCoefficient fsqrt st.signatureHistBot candHistBot +
                       4/10 * bhattacharyyaCoefficient fsqrt st.signatureSatHistBot candSatHistBot
        let regionsPassing : ℤ :=
          (if topConf ≥ MIN_REGION_CONFIDENCE then 1 else 0) +
          (if midConf ≥ MIN_REGION_CONFIDENCE then 1 else 0) +
          (if botConf ≥ MIN_REGION_CONFIDENCE then 1 else 0)
        if regionsPassing < MIN_REGIONS_PASSING then
          { confidence := 0, skinPercentage := skinPercentage, valid := false }
        else
          let confidence := (topConf + midConf + botConf) / 3
          let confidence := confidence * (1 - 25/100 * driftPenalty)
          { confidence := confidence, skinPercentage := skinPercentage, valid := true }

/-- HistogramTracker::updateHistory. -/
def updateHistory (confidence : ℚ) (x y : ℤ) (st : HT) : HT :=
  { st with
    confidenceHistory := fun j =>
      if j = fin5 st.historyIndex then confidence else st.confidenceHistory j,
    positionHistoryX := fun j =>
      if j = fin5 st.historyIndex then x else st.positionHistoryX j,
    positionHistoryY := fun j =>
      if j = fin5 st.historyIndex then y else st.positionHistoryY j,
    historyIndex := (st.historyIndex + 1) % 5,
    historyCount := if st.historyCount < QUALITY_HISTORY_SIZE
                    then st.historyCount + 1 else st.historyCount }

/-- HistogramTracker::assessQuality: confidence trend over the last 2
versus the older samples, plus the maximum frame-to-frame position jump. -/
def assessQuality (fsqrt : ℚ → ℚ) (st : HT) : TrackingQuality :=
  if st.historyCount < 3 then TrackingQuality.QUALITY_MODERATE
  else
    let acc : ℚ × ℤ × ℚ × ℤ :=
      (List.range st.historyCount.toNat).foldl
        (fun a i =>
          let idx := fin5 (st.historyIndex - 1 - (i : ℤ) + QUALITY_HISTORY_SIZE)
          if (i : ℤ) < 2 then (a.1 + st.confidenceHistory idx, a.2.1 + 1, a.2.2)
          else (a.1, a.2.1, a.2.2.1 + st.confidenceHistory idx, a.2.2.2 + 1))
        (0, 0, 0, 0)
    let recentAvg := if acc.2.1 > 0 then acc.1 / (acc.2.1 : ℚ) else acc.1
    let olderAvg := if acc.2.2.2 > 0 then acc.2.2.1 / (acc.2.2.2 : ℚ) else acc.2.2.1
    let confidenceDropping := acc.2.2.2 > 0 ∧ recentAvg < olderAvg - CONFIDENCE_DROP_ALERT
    let confidenceHigh := recentAvg ≥ CONFIDENCE_HIGH
    let maxJump :=
      ((List.range (st.historyCount.toNat - 1)).map Nat.succ).foldl
        (fun m i =>
          let idx1 := fin5 (st.historyIndex - (i : ℤ) + QUALITY_HISTORY_SIZE)
          let idx2 := fin5 (st.historyIndex - (i : ℤ) - 1 + QUALITY_HISTORY_SIZE)
          let dx : ℚ := ((st.positionHistoryX idx1 - st.positionHistoryX idx2 : ℤ) : ℚ)
          let dy : ℚ := ((st.positionHistoryY idx1 - st.positionHistoryY idx2 : ℤ) : ℚ)
          let jump := fsqrt (dx * dx + dy * dy)
          if jump > m then jump else m)
        0
    let positionStable := maxJump < MAX_POSITION_JUMP
    if confidenceDropping ∨ ¬positionStable then TrackingQuality.QUALITY_POOR
    else if confidenceHigh ∧ positionStable then TrackingQuality.QUALITY_GOOD
    else TrackingQuality.QUALITY_MODERATE

/-- HistogramTracker::getMaxFramesForQuality. -/
def getMaxFramesForQuality (q : TrackingQuality) : ℤ :=
  match q with
  | TrackingQuality.QUALITY_GOOD => MAX_HISTOGRAM_FRAMES_GOOD
  | TrackingQuality.QUALITY_MODERATE =>
      tdivZ (MAX_HISTOGRAM_FRAMES_GOOD + MAX_HISTOGRAM_FRAMES_POOR) 2
  | TrackingQuality.QUALITY_POOR => MAX_HISTOGRAM_FRAMES_POOR

/-- HistogramTracker::buildSignature (called with a non-null frame; the
null-frame early return is outside the model since `Frame` is total). -/
def buildSignature (frame : Frame) (faceX faceY faceW faceH : ℤ) (now : ℕ)
    (st : HT) : HT :=
  let x1 := max 0 (faceX - tdivZ faceW 2 - 5)
  let y1 := max 0 (faceY - tdivZ faceH 2 - 5)
  let x2 := min 240 (faceX + tdivZ faceW 2 + 5)
  let y2 := min 240 (faceY + tdivZ faceH 2 + 5)
  let acc := regionScan frame x1 y1 x2 y2
  let signatureSkinShare :=
    if acc.totalPixels > 0 then (acc.skinPixels : ℚ) / (acc.totalPixels : ℚ) else 0
  { st with
    signatureHistTop := normHist acc.histTop acc.weightTop,
    signatureSatHistTop := normHist acc.satHistTop acc.weightTop,
    signatureHistMid := normHist acc.histMid acc.weightMid,
    signatureSatHistMid := normHist acc.satHistMid acc.weightMid,
    signatureHistBot := normHist acc.histBot acc.weightBot,
    signatureSatHistBot := normHist acc.satHistBot acc.weightBot,
    signaturePixelCount := acc.totalPixels,
    meanHue := if acc.totalPixels > 0 then acc.sumH / (acc.totalPixels : ℚ) else st.meanHue,
    meanSat := if acc.totalPixels > 0 then acc.sumS / (acc.totalPixels : ℚ) else st.meanSat,
    meanVal := if acc.totalPixels > 0 then acc.sumV / (acc.totalPixels : ℚ) else st.meanVal,
    textureVariance :=
      calculateTextureVariance frame faceX faceY (tdivZ (max faceW faceH) 2),
    signatureSkinShare := signatureSkinShare,
    centerX := faceX, centerY := faceY,
    signatureTime := now, histogramOnlyFrames := 0,
    consecutiveCollapses := 0, consecutiveStableFrames := 0,
    lastMatchX := faceX, lastMatchY := faceY, lastConfidence := 1,
    historyIndex := 0, historyCount := 0,
    signatureValid :=
      decide (acc.totalPixels > 0 ∧ signatureSkinShare ≥ SIGNATURE_SKIN_RATIO_MIN) }

/-- The adaptive search radius of track(): wide when the servo moves fast,
narrow when nearly still, linearly interpolated in between (the float
result is assigned to the int member, truncating). -/
def adaptiveSearchRadius (servoSpeed : ℚ) : ℤ :=
  if servoSpeed > SPEED_THRESHOLD_FAST then SEARCH_RADIUS_FAST
  else if servoSpeed < SPEED_THRESHOLD_SLOW then SEARCH_RADIUS_SLOW
  else
    let t := (servoSpeed - SPEED_THRESHOLD_SLOW) /
             (SPEED_THRESHOLD_FAST - SPEED_THRESHOLD_SLOW)
    truncQ ((SEARCH_RADIUS_SLOW : ℚ) + t * ((SEARCH_RADIUS_FAST : ℚ) - (SEARCH_RADIUS_SLOW : ℚ)))

/-- Best-candidate accumulator of the two search stages. -/
structure BestAcc where
  conf : ℚ
  x : ℤ
  y : ℤ
  skin : ℚ
  deriving DecidableEq

/-- Stage 1 of track(): the coarse search on a 4-pixel grid over the window
centred on the (clamped) predicted position. -/
def coarseSearch (fsqrt : ℚ → ℚ) (frame : Frame) (st : HT)
    (searchCenterX searchCenterY searchRadius : ℤ) : BestAcc :=
  let xStart := max 30 (searchCenterX - searchRadius)
  let xEnd := min 210 (searchCenterX + searchRadius)
  let yStart := max 30 (searchCenterY - searchRadius)
  let yEnd := min 210 (searchCenterY + searchRadius)
  (stepRange yStart yEnd COARSE_STEP).foldl
    (fun acc y =>
      (stepRange xStart xEnd COARSE_STEP).foldl
        (fun acc x =>
          let result := evaluateCandidate fsqrt frame st x y
          if result.valid ∧ result.confidence > acc.conf then
            { conf := result.confidence, x := x, y := y, skin := result.skinPercentage }
          else acc)
        acc)
    { conf := 0, x := searchCenterX, y := searchCenterY, skin := 0 }

/-- Stage 2 of track(): the fine 1-pixel refinement around the coarse best
(skipping the already-scored coarse point). -/
def fineSearch (fsqrt : ℚ → ℚ) (frame : Frame) (st : HT) (coarse : BestAcc) : BestAcc :=
  let fineXStart := max 30 (coarse.x - FINE_RADIUS)
  let fineXEnd := min 210 (coarse.x + FINE_RADIUS)
  let fineYStart := max 30 (coarse.y - FINE_RADIUS)
  let fineYEnd := min 210 (coarse.y + FINE_RADIUS)
  (stepRange fineYStart (fineYEnd + 1) FINE_STEP).foldl
    (fun acc y =>
      (stepRange fineXStart (fineXEnd + 1) FINE_STEP).foldl
        (fun acc x =>
          if x = coarse.x ∧ y = coarse.y then acc
          else
            let result := evaluateCandidate fsqrt frame st x y
            if result.valid ∧ result.confidence > acc.conf then
              { conf := result.confidence, x := x, y := y, skin := result.skinPercentage }
            else acc)
        acc)
    coarse

/-- HistogramTracker::track.  Returns `some (x, y, confidence)` on success
(the three out-parameters) or `none` on failure, together with the updated
tracker state. -/
def track (fsqrt : ℚ → ℚ) (frame : Frame) (predictedX predictedY : ℤ)
    (servoSpeed : ℚ) (now : ℕ) (st : HT) : Option (ℤ × ℤ × ℚ) × HT :=
  if st.signatureValid = false ∨ st.signaturePixelCount = 0 then (none, st)
  else
    let age := now - st.signatureTime
    -- absolute maximum age
    if age > SIGNATURE_MAX_AGE_MS then (none, { st with signatureValid := false })
    else
      -- quality-based frame limit (only checked after the minimum age)
      let qualityFail : Bool :=
        if age > SIGNATURE_MIN_AGE_MS then
          decide (st.histogramOnlyFrames ≥
            getMaxFramesForQuality (assessQuality fsqrt st))
        else false
      if qualityFail then (none, { st with signatureValid := false })
      else
        let searchRadius := adaptiveSearchRadius servoSpeed
        let searchCenterX := constrainZ predictedX 30 210
        let searchCenterY := constrainZ predictedY 30 210
        let coarse := coarseSearch fsqrt frame st searchCenterX searchCenterY searchRadius
        -- skin collapse check (before fine search)
        if coarse.skin < SKIN_COLLAPSE_THRESHOLD then
          let cc := st.consecutiveCollapses + 1
          (none, { st with
            searchRadius := searchRadius,
            consecutiveCollapses := cc,
            signatureValid := if cc ≥ 2 then false else st.signatureValid,
            histogramOnlyFrames := st.histogramOnlyFrames + 1 })
        else
          if coarse.conf < CONFIDENCE_THRESHOLD * (9/10) then
            (none, { st with searchRadius := searchRadius, consecutiveCollapses := 0,
                             histogramOnlyFrames := st.histogramOnlyFrames + 1 })
          else
            let fine := fineSearch fsqrt frame st coarse
            let coherence := calculateCoherence frame fine.x fine.y 15
            if coherence < MIN_COHERENCE_SCORE then
              (none, { st with searchRadius := searchRadius, consecutiveCollapses := 0,
                               histogramOnlyFrames := st.histogramOnlyFrames + 1 })
            else
              let finalConfidence := fine.conf * (92/100 + 8/100 * coherence)
              let dx : ℚ := ((fine.x - predictedX : ℤ) : ℚ)
              let dy : ℚ := ((fine.y - predictedY : ℤ) : ℚ)
              let dist := fsqrt (dx * dx + dy * dy)
              if dist > MATCH_DISTANCE_LIMIT then
                (none, { st with searchRadius := searchRadius, consecutiveCollapses := 0,
                                 histogramOnlyFrames := st.histogramOnlyFrames + 1 })
              else
                let finalConfidence :=
                  finalConfidence * (1 - dist / (searchRadius : ℚ) * (3/100))
                if finalConfidence < CONFIDENCE_THRESHOLD then
                  (none, { st with searchRadius := searchRadius, consecutiveCollapses := 0,
                                   histogramOnlyFrames := st.histogramOnlyFrames + 1 })
                else
                  let jump := fsqrt
                    (((fine.x - st.lastMatchX : ℤ) : ℚ) * ((fine.x - st.lastMatchX : ℤ) : ℚ) +
                     ((fine.y - st.lastMatchY : ℤ) : ℚ) * ((fine.y - st.lastMatchY : ℤ) : ℚ))
                  let st := updateHistory finalConfidence fine.x fine.y st
                  (some (fine.x, fine.y, finalConfidence),
                   { st with
                     searchRadius := searchRadius, consecutiveCollapses := 0,
                     consecutiveStableFrames :=
                       if jump < MAX_POSITION_JUMP then st.consecutiveStableFrames + 1 else 0,
                     lastMatchX := fine.x, lastMatchY := fine.y,
                     lastConfidence := finalConfidence,
                     centerX := fine.x, centerY := fine.y,
                     histogramOnlyFrames := st.histogramOnlyFrames + 1 })

/-- HistogramTracker::isSignatureValid. -/
def isSignatureValid (now : ℕ) (st : HT) : Bool :=
  if st.signatureValid = false then false
  else decide (now - st.signatureTime ≤ SIGNATURE_MAX_AGE_MS)

/-- HistogramTracker::invalidate. -/
def invalidate (st : HT) : HT := { st with signatureValid := false }

end Hist

/-! ## Verification-layer definitions (predicates and concrete instances
used by the theorems below) -/

namespace Reflex

/-- The servo-range contract on the stored target angles: base/pan within
[10, 170] and nod/tilt within [80, 150]. -/
def TargetsInRange (st : RC) : Prop :=
  BASE_MIN ≤ st.targetBase ∧ st.targetBase ≤ BASE_MAX ∧
  NOD_MIN ≤ st.targetNod ∧ st.targetNod ≤ NOD_MAX

/-- The guard of track() up to and including the quality-budget check: a
call whose state and clock satisfy this reaches the coarse search. -/
def FaceDetectedNow (st : RC) : Prop := st.active = true ∧ st.dataIsStale = false

/-- Chained tick-clock validity for a list of calculate calls: each call
comes at least one full update interval after the previous one. -/
def CalcTimesOK : ℕ → List (ℤ × ℤ × ℕ) → Prop
  | _, [] => True
  | last, t :: ts => last + REFLEX_UPDATE_RATE_MS ≤ t.2.2 ∧ CalcTimesOK t.2.2 ts

/-- Run a list of calculate calls (arguments currentBase, currentNod, now). -/
def runCalcs (fsqrt : ℚ → ℚ) (ticks : List (ℤ × ℤ × ℕ)) (st : RC) : RC :=
  ticks.foldl (fun st t => (calculate fsqrt t.1 t.2.1 t.2.2 st).2) st

/-- A square-root table adequate for the concrete runs below: exact on the
two perfect squares (0 and 100) those runs reach. -/
def fsqrtEx (q : ℚ) : ℚ := if q = 100 then 10 else 0

/-- The concrete call sequence of the claim C3 counterexample: enable, one
face report 10 px left of centre, and two control ticks.  The second tick
moves the state machine to TRACK with the report inside the deadband while
the pan PID keeps a nonzero integral and previous error from the first. -/
def c3ops : List Op :=
  [Op.opEnable,
   Op.opUpdateFaceData 110 120 55 100 1000,
   Op.opCalculate 90 115 1020,
   Op.opCalculate 90 115 1040]

/-- The state reached by the claim C3 counterexample prefix. -/
def c3st : RC := runOps fsqrtEx c3ops rcReset

/-- A TRACK-state instance with clean PID accumulators, used to witness the
amended deadband claim. -/
def c3wst : RC :=
  { rcReset with controlState := ControlState.TRACK, active := true,
                 faceX := 115, faceConfidence := 100 }

/-- An active LOST-state instance (face just reported). -/
def c4bst : RC := { rcReset with active := true }

/-- An active ACQUIRE-state instance one frame short of TRACK with the face
10 px from centre. -/
def c4cst : RC :=
  { rcReset with active := true, controlState := ControlState.ACQUIRE,
                 framesTracked := 1, faceX := 110 }

/-- A TRACK-state instance with no face feed, from which ten missed ticks
must reach LOST. -/
def c4dst : RC := { rcReset with controlState := ControlState.TRACK }

/-- Ten control ticks spaced one update interval apart. -/
def c4ticks : List (ℤ × ℤ × ℕ) :=
  [(90, 115, 100), (90, 115, 120), (90, 115, 140), (90, 115, 160),
   (90, 115, 180), (90, 115, 200), (90, 115, 220), (90, 115, 240),
   (90, 115, 260), (90, 115, 280)]

/-- An active state with five stale reports already counted, one short of
the stale-count limit. -/
def c7st1 : RC :=
  { rcReset with active := true, staleDataCount := 5,
                 prevFaceX := 100, prevFaceY := 100 }

/-- An already-latched state: feed marked stale, tracker deactivated. -/
def c7st2 : RC :=
  { rcReset with dataIsStale := true, prevFaceX := 100, prevFaceY := 100 }

/-- A latched state whose operator intent is still active, awaiting fresh
data. -/
def c7st4 : RC :=
  { rcReset with shouldBeActive := true, dataIsStale := true,
                 prevFaceX := 100, prevFaceY := 100 }

/-- An active state carrying residual tracking state: a nonzero pan
integral accumulator and five tracked frames. -/
def c8rc : RC :=
  { rcReset with active := true, framesTracked := 5,
                 panPID := { rcReset.panPID with integral := 3 } }

end Reflex

namespace Hist

/-- The frame whose bytes are all zero: every pixel decodes to black,
which is not skin tone. -/
def zeroFrame : Frame := fun _ => (0 : Fin 256)

/-- The guards of track() before the coarse search: a call on this state at
this clock reaches the coarse search stage. -/
def ReachesCoarse (fsqrt : ℚ → ℚ) (st : HT) (now : ℕ) : Prop :=
  st.signatureValid = true ∧ st.signaturePixelCount ≠ 0 ∧
  now - st.signatureTime ≤ SIGNATURE_MAX_AGE_MS ∧
  (now - st.signatureTime ≤ SIGNATURE_MIN_AGE_MS ∨
    st.histogramOnlyFrames < getMaxFramesForQuality (assessQuality fsqrt st))

/-- Agreement of two frame buffers on the 240*240*2-byte pixel extent. -/
def FrameAgree (f g : Frame) : Prop := ∀ i : ℕ, i < 115200 → f i = g i

/-- A frame equal to the all-zero frame on the 115200-byte pixel extent but
different everywhere beyond it. -/
def altFrame : Frame := fun i => if i < 115200 then 0 else 37

/-- A tracker state with a valid signature and accumulated history: three
history entries and four histogram-only frames. -/
def c8ht : HT :=
  { htReset with signatureValid := true, historyCount := 3,
                 histogramOnlyFrames := 4 }

/-- A valid-signature tracker state used by the concrete witnesses: a fresh
all-zero signature marked valid (one sampled pixel, skin share forced
high enough at construction is irrelevant to the control flow exercised). -/
def htValid : HT :=
  { htReset with signatureValid := true, signaturePixelCount := 1, signatureTime := 0 }

end Hist

/-! # Theorems -/

theorem constrainQ_abs_le (x c : ℚ) (h : 0 ≤ c) : |constrainQ x (-c) c| ≤ c := by
  rw [abs_le]
  exact ⟨constrainQ_ge (by linarith), constrainQ_le (by linarith)⟩

theorem truncQ_constrainQ_mem (q : ℚ) {lo hi : ℤ} (h0 : 0 ≤ lo) (h : lo ≤ hi) :
    lo ≤ truncQ (constrainQ q (lo : ℚ) (hi : ℚ)) ∧
    truncQ (constrainQ q (lo : ℚ) (hi : ℚ)) ≤ hi := by
  have hq : (lo : ℚ) ≤ (hi : ℚ) := by exact_mod_cast h
  refine ⟨truncQ_ge h0 (constrainQ_ge hq), ?_⟩
  have h0q : (0 : ℚ) ≤ constrainQ q (lo : ℚ) (hi : ℚ) :=
    le_trans (by exact_mod_cast h0) (constrainQ_ge hq)
  exact truncQ_nonneg_le h0q (constrainQ_le hq)

/-- C2: for any input pixel error and any internal controller state, the
per-axis velocity command that a control tick applies to the running
pan/tilt angle — the PID output after the velocity-limiting constrain,
whose product with SMOOTHING_FACTOR is added to the angle — never exceeds
MAX_VELOCITY_PER_FRAME (6 degrees) in magnitude, on either axis, for every
square-root routine. -/
theorem c2_pid_velocity_command_bounded (fsqrt : ℚ → ℚ) (st : Reflex.RC) :
    |Reflex.panVelocityCommand fsqrt st| ≤ Reflex.MAX_VELOCITY_PER_FRAME ∧
    |Reflex.tiltVelocityCommand fsqrt st| ≤ Reflex.MAX_VELOCITY_PER_FRAME ∧
    (Reflex.updatePredictiveTracking fsqrt st).panAngle =
      st.panAngle + Reflex.panVelocityCommand fsqrt st * Reflex.SMOOTHING_FACTOR ∧
    (Reflex.updatePredictiveTracking fsqrt st).tiltAngle =
      st.tiltAngle + Reflex.tiltVelocityCommand fsqrt st * Reflex.SMOOTHING_FACTOR := by
  refine ⟨?_, ?_, rfl, rfl⟩
  · unfold Reflex.panVelocityCommand
    exact constrainQ_abs_le _ _ (by norm_num [Reflex.MAX_VELOCITY_PER_FRAME])
  · unfold Reflex.tiltVelocityCommand
    exact constrainQ_abs_le _ _ (by norm_num [Reflex.MAX_VELOCITY_PER_FRAME])

namespace Reflex

theorem targetsInRange_rcReset : TargetsInRange rcReset := by
  refine ⟨?_, ?_, ?_, ?_⟩ <;> decide

theorem updatePredictiveTracking_targets (fsqrt : ℚ → ℚ) (st : RC) :
    (updatePredictiveTracking fsqrt st).targetBase = st.targetBase ∧
    (updatePredictiveTracking fsqrt st).targetNod = st.targetNod :=
  ⟨rfl, rfl⟩

theorem updateLost_targets (fsqrt : ℚ → ℚ) (now : ℕ) (st : RC) :
    (updateLost fsqrt now st).targetBase = st.targetBase ∧
    (updateLost fsqrt now st).targetNod = st.targetNod := by
  constructor <;>
  · simp only [updateLost]
    repeat' split
    all_goals rfl

theorem stateMachineStep_targets (st : RC) :
    (stateMachineStep st).targetBase = st.targetBase ∧
    (stateMachineStep st).targetNod = st.targetNod := by
  constructor <;>
  · simp only [stateMachineStep]
    repeat' split
    all_goals rfl

theorem blindStateStep_some {st : RC} {out : CalcOut} {st2 : RC}
    (h : blindStateStep st = (some out, st2)) :
    TargetsInRange st2 ∧ out.baseOut = st2.targetBase ∧ out.nodOut = st2.targetNod := by
  by_cases h1 : st.blindState ≠ BlindState.NORMAL
  · by_cases h2 : st.blindState = BlindState.BLIND_MOVING
    · by_cases h3 : st.blindFrameCounter + 1 ≤ BLIND_IGNORE_FRAMES
      · simp only [blindStateStep, if_pos h1, if_pos h2, if_pos h3,
          Prod.mk.injEq, Option.some.injEq] at h
        obtain ⟨h4, h5⟩ := h
        subst h4
        subst h5
        refine ⟨⟨?_, ?_, ?_, ?_⟩, rfl, rfl⟩
        · exact (truncQ_constrainQ_mem _ (by decide) (by decide)).1
        · exact (truncQ_constrainQ_mem _ (by decide) (by decide)).2
        · exact (truncQ_constrainQ_mem _ (by decide) (by decide)).1
        · exact (truncQ_constrainQ_mem _ (by decide) (by decide)).2
      · simp only [blindStateStep, if_pos h1, if_pos h2, if_neg h3] at h
        split at h <;> simp at h
    · simp only [blindStateStep, if_pos h1, if_neg h2] at h
      split at h <;> simp at h
  · simp only [blindStateStep, if_neg h1] at h
    simp at h

theorem blindStateStep_none {st : RC} {st2 : RC}
    (h : blindStateStep st = (none, st2)) :
    st2.targetBase = st.targetBase ∧ st2.targetNod = st.targetNod := by
  by_cases h1 : st.blindState ≠ BlindState.NORMAL
  · by_cases h2 : st.blindState = BlindState.BLIND_MOVING
    · by_cases h3 : st.blindFrameCounter + 1 ≤ BLIND_IGNORE_FRAMES
      · simp only [blindStateStep, if_pos h1, if_pos h2, if_pos h3] at h
        simp at h
      · simp only [blindStateStep, if_pos h1, if_pos h2, if_neg h3] at h
        split at h <;> (simp only [Prod.mk.injEq] at h; obtain ⟨-, h5⟩ := h; subst h5; exact ⟨rfl, rfl⟩)
    · simp only [blindStateStep, if_pos h1, if_neg h2] at h
      split at h <;> (simp only [Prod.mk.injEq] at h; obtain ⟨-, h5⟩ := h; subst h5; exact ⟨rfl, rfl⟩)
  · simp only [blindStateStep, if_neg h1, Prod.mk.injEq] at h
    obtain ⟨-, h5⟩ := h
    subst h5
    exact ⟨rfl, rfl⟩

theorem updateFaceDataStore_targets (x y size d : ℤ) (now : ℕ) (st : RC) :
    (updateFaceDataStore x y size d now st).targetBase = st.targetBase ∧
    (updateFaceDataStore x y size d now st).targetNod = st.targetNod := by
  constructor <;>
  · simp only [updateFaceDataStore]
    repeat' split
    all_goals rfl

theorem updateFaceData_targets (x y size d : ℤ) (now : ℕ) (st : RC) :
    (updateFaceData x y size d now st).targetBase = st.targetBase ∧
    (updateFaceData x y size d now st).targetNod = st.targetNod := by
  constructor <;>
  · simp only [updateFaceData]
    repeat' split
    all_goals first
      | rfl
      | exact (updateFaceDataStore_targets _ _ _ _ _ _).1
      | exact (updateFaceDataStore_targets _ _ _ _ _ _).2

theorem calculate_targets (fsqrt : ℚ → ℚ) (b n : ℤ) (now : ℕ) (st : RC)
    (h : TargetsInRange st) :
    TargetsInRange (calculate fsqrt b n now st).2 ∧
    (calculate fsqrt b n now st).1.baseOut = (calculate fsqrt b n now st).2.targetBase ∧
    (calculate fsqrt b n now st).1.nodOut = (calculate fsqrt b n now st).2.targetNod := by
  simp only [calculate]
  split
  · exact ⟨h, rfl, rfl⟩
  · split
    case h_1 out st2 heq => exact blindStateStep_some heq
    case h_2 st2 heq =>
      refine ⟨⟨?_, ?_, ?_, ?_⟩, rfl, rfl⟩
      · exact (truncQ_constrainQ_mem _ (by decide) (by decide)).1
      · exact (truncQ_constrainQ_mem _ (by decide) (by decide)).2
      · exact (truncQ_constrainQ_mem _ (by decide) (by decide)).1
      · exact (truncQ_constrainQ_mem _ (by decide) (by decide)).2

theorem runOp_targets (fsqrt : ℚ → ℚ) (op : Op) (st : RC) (h : TargetsInRange st) :
    TargetsInRange (runOp fsqrt st op) := by
  cases op with
  | opEnable =>
    simp only [runOp, enable]
    split <;> exact h
  | opDisable =>
    simp only [runOp, disable]
    split <;> exact h
  | opReset => exact targetsInRange_rcReset
  | opFaceLost =>
    simp only [runOp, faceLost]
    split <;> exact h
  | opCheckTimeout now =>
    simp only [runOp, checkTimeout]
    repeat' split
    all_goals exact h
  | opUpdateConfidence c => exact h
  | opUpdateFaceData x y size d now =>
    have hp := updateFaceData_targets x y size d now st
    exact ⟨hp.1 ▸ h.1, hp.1 ▸ h.2.1, hp.2 ▸ h.2.2.1, hp.2 ▸ h.2.2.2⟩
  | opCalculate b n now => exact (calculate_targets fsqrt b n now st h).1

theorem runOps_targets (fsqrt : ℚ → ℚ) (ops : List Op) (st : RC)
    (h : TargetsInRange st) : TargetsInRange (runOps fsqrt ops st) := by
  induction ops generalizing st with
  | nil => exact h
  | cons op ops ih => exact ih _ (runOp_targets fsqrt op st h)

end Reflex

/-- C1: every pair of target angles produced by ReflexiveControl::calculate
— on the throttled early-return path, the blind-moving trajectory path, and
the normal control path alike — satisfies 10 <= targetBase <= 170 and
80 <= targetNod <= 150, for every sequence of prior calls to the public
mutating interface (including arbitrary, even out-of-range, updateFaceData
inputs), every clock, and every square-root routine. -/
theorem c1_calculate_targets_in_servo_range (fsqrt : ℚ → ℚ) (ops : List Reflex.Op)
    (currentBase currentNod : ℤ) (now : ℕ) :
    Reflex.BASE_MIN ≤
        ((Reflex.calculate fsqrt currentBase currentNod now
          (Reflex.runOps fsqrt ops Reflex.rcReset)).1).baseOut ∧
    ((Reflex.calculate fsqrt currentBase currentNod now
          (Reflex.runOps fsqrt ops Reflex.rcReset)).1).baseOut ≤ Reflex.BASE_MAX ∧
    Reflex.NOD_MIN ≤
        ((Reflex.calculate fsqrt currentBase currentNod now
          (Reflex.runOps fsqrt ops Reflex.rcReset)).1).nodOut ∧
    ((Reflex.calculate fsqrt currentBase currentNod now
          (Reflex.runOps fsqrt ops Reflex.rcReset)).1).nodOut ≤ Reflex.NOD_MAX := by
  have hst := Reflex.runOps_targets fsqrt ops Reflex.rcReset Reflex.targetsInRange_rcReset
  obtain ⟨hr, hb, hn⟩ :=
    Reflex.calculate_targets fsqrt currentBase currentNod now
      (Reflex.runOps fsqrt ops Reflex.rcReset) hst
  rw [hb, hn]
  exact hr

namespace Reflex

/-- When the blind machine is not in BLIND_MOVING, its per-tick step takes
no early return and leaves the control-relevant fields (angles, control
state, activity, face data, PID states) unchanged. -/
theorem blindStateStep_not_moving {st : RC}
    (h : st.blindState ≠ BlindState.BLIND_MOVING) :
    (blindStateStep st).1 = none ∧
    (blindStateStep st).2.panAngle = st.panAngle ∧
    (blindStateStep st).2.tiltAngle = st.tiltAngle ∧
    (blindStateStep st).2.controlState = st.controlState ∧
    (blindStateStep st).2.active = st.active ∧
    (blindStateStep st).2.dataIsStale = st.dataIsStale ∧
    (blindStateStep st).2.faceX = st.faceX ∧
    (blindStateStep st).2.faceY = st.faceY ∧
    (blindStateStep st).2.faceConfidence = st.faceConfidence ∧
    (blindStateStep st).2.panPID = st.panPID ∧
    (blindStateStep st).2.tiltPID = st.tiltPID := by
  simp only [blindStateStep]
  repeat' split
  all_goals first
    | (and_intros <;> rfl)
    | (exfalso; apply h; assumption)
    | (rename_i heq hcond; have h5 := congrArg Prod.snd heq; dsimp only at h5;
       subst h5; and_intros <;> rfl)
    | (rename_i heq; have h5 := congrArg Prod.snd heq; dsimp only at h5;
       subst h5; and_intros <;> rfl)
    | simp_all

/-- A tick with the face detected while already in TRACK only refreshes the
frame counters. -/
theorem pidUpdateGains_state (p : APID) (e m : ℚ) :
    (pidUpdateGains p e m).integral = p.integral ∧
    (pidUpdateGains p e m).prev_error = p.prev_error ∧
    (pidUpdateGains p e m).max_integral = p.max_integral := by
  simp only [pidUpdateGains]
  repeat' split
  all_goals exact ⟨rfl, rfl, rfl⟩

theorem pidUpdate_zero (p : APID) (dt : ℚ) (hI : p.integral = 0)
    (hE : p.prev_error = 0) (hM : 0 ≤ p.max_integral) :
    (pidUpdate p 0 dt).1 = 0 := by
  simp only [pidUpdate, hI, hE, mul_zero, zero_mul, add_zero, zero_add, sub_self,
    zero_div]
  simp only [constrainQ]
  rw [if_neg (by linarith), if_neg (by linarith)]

theorem stateMachineStep_track {st : RC}
    (hTrack : st.controlState = ControlState.TRACK)
    (hAct : st.active = true) (hStale : st.dataIsStale = false) :
    stateMachineStep st = { st with framesLost := 0,
                                    framesTracked := st.framesTracked + 1 } := by
  have hne1 : (ControlState.TRACK = ControlState.LOST) = False := eq_false (by decide)
  have hne2 : (ControlState.TRACK = ControlState.ACQUIRE) = False := eq_false (by decide)
  simp only [stateMachineStep, hAct, hStale, hTrack, hne1, hne2, false_and, if_false]
  norm_num

/-- With both errors zeroed by the deadband and clean PID accumulators, one
updatePredictiveTracking step leaves panAngle and tiltAngle unchanged. -/
theorem updatePredictiveTracking_deadband_hold (fsqrt : ℚ → ℚ) {st : RC}
    (hTrack : st.controlState = ControlState.TRACK)
    (hX : |((st.faceX - CAMERA_CENTER_X : ℤ) : ℚ)| <
      ((12 + truncQ ((1 - (st.faceConfidence : ℚ) / 100) * 8) : ℤ) : ℚ))
    (hY : |((st.faceY - CAMERA_CENTER_Y : ℤ) : ℚ)| <
      ((12 + truncQ ((1 - (st.faceConfidence : ℚ) / 100) * 8) : ℤ) : ℚ))
    (hPanI : st.panPID.integral = 0) (hPanE : st.panPID.prev_error = 0)
    (hPanM : 0 ≤ st.panPID.max_integral)
    (hTiltI : st.tiltPID.integral = 0) (hTiltE : st.tiltPID.prev_error = 0)
    (hTiltM : 0 ≤ st.tiltPID.max_integral) :
    (updatePredictiveTracking fsqrt st).panAngle = st.panAngle ∧
    (updatePredictiveTracking fsqrt st).tiltAngle = st.tiltAngle := by
  constructor <;>
  · simp only [updatePredictiveTracking]
    rw [if_pos ⟨hTrack, hX⟩, if_pos ⟨hTrack, hY⟩]
    simp only [zero_mul]
    rw [pidUpdate_zero]
    · norm_num [constrainQ, MAX_VELOCITY_PER_FRAME, SMOOTHING_FACTOR]
    · rw [(pidUpdateGains_state _ _ _).1]
      first | exact hPanI | exact hTiltI
    · rw [(pidUpdateGains_state _ _ _).2.1]
      first | exact hPanE | exact hTiltE
    · rw [(pidUpdateGains_state _ _ _).2.2]
      first | exact hPanM | exact hTiltM

end Reflex

/-- C3 (amended): while controlState is TRACK, on a tick that passes the
rate limiter, with the blind machine not in its BLIND_MOVING early-return
phase, the face data active and not stale, both pixel errors strictly
inside the confidence-derived deadband (12 + trunc((1 - confidence/100)*8)
pixels, as the code computes it with integer truncation), and both PID
controllers carrying no residual state (zero integral accumulator and zero
previous error, with the nonnegative integral bound the constructor
establishes), that tick's calculate leaves panAngle and tiltAngle at the
current angles it was handed — zero angular output change. -/
theorem c3_track_deadband_amended (fsqrt : ℚ → ℚ) (b n : ℤ) (now : ℕ)
    (st : Reflex.RC)
    (hRate : ¬ (now - st.lastUpdateTime < Reflex.REFLEX_UPDATE_RATE_MS))
    (hBlind : st.blindState ≠ Reflex.BlindState.BLIND_MOVING)
    (hTrack : st.controlState = Reflex.ControlState.TRACK)
    (hAct : st.active = true) (hStale : st.dataIsStale = false)
    (hX : |((st.faceX - Reflex.CAMERA_CENTER_X : ℤ) : ℚ)| <
      ((12 + truncQ ((1 - (st.faceConfidence : ℚ) / 100) * 8) : ℤ) : ℚ))
    (hY : |((st.faceY - Reflex.CAMERA_CENTER_Y : ℤ) : ℚ)| <
      ((12 + truncQ ((1 - (st.faceConfidence : ℚ) / 100) * 8) : ℤ) : ℚ))
    (hPanI : st.panPID.integral = 0) (hPanE : st.panPID.prev_error = 0)
    (hPanM : 0 ≤ st.panPID.max_integral)
    (hTiltI : st.tiltPID.integral = 0) (hTiltE : st.tiltPID.prev_error = 0)
    (hTiltM : 0 ≤ st.tiltPID.max_integral) :
    (Reflex.calculate fsqrt b n now st).2.panAngle = (b : ℚ) ∧
    (Reflex.calculate fsqrt b n now st).2.tiltAngle = (n : ℚ) := by
  simp only [Reflex.calculate]
  rw [if_neg hRate]
  obtain ⟨hb1, hb2, hb3, hb4, hb5, hb6, hb7, hb8, hb9, hb10, hb11⟩ :=
    @Reflex.blindStateStep_not_moving
      { st with lastUpdateTime := now,
                panAngle := (b : ℚ), tiltAngle := (n : ℚ) }
      hBlind
  set s2 : Reflex.RC :=
    (Reflex.blindStateStep
      { st with lastUpdateTime := now,
                panAngle := (b : ℚ), tiltAngle := (n : ℚ) }).2 with hs2
  have hpair : Reflex.blindStateStep
      { st with lastUpdateTime := now,
                panAngle := (b : ℚ), tiltAngle := (n : ℚ) } = (none, s2) := by
    rw [hs2, ← hb1]
  rw [hpair]
  dsimp only
  have hct2 : s2.controlState = Reflex.ControlState.TRACK := hb4.trans hTrack
  have hac2 : s2.active = true := hb5.trans hAct
  have hds2 : s2.dataIsStale = false := hb6.trans hStale
  rw [Reflex.stateMachineStep_track hct2 hac2 hds2]
  have hct3 : ({ s2 with
      framesLost := 0, framesTracked := s2.framesTracked + 1 } : Reflex.RC).controlState =
      Reflex.ControlState.TRACK := hct2
  rw [if_pos (Or.inr hct3)]
  have hfx : ({ s2 with
      framesLost := 0, framesTracked := s2.framesTracked + 1 } : Reflex.RC).faceX = st.faceX := hb7
  have hfy : ({ s2 with
      framesLost := 0, framesTracked := s2.framesTracked + 1 } : Reflex.RC).faceY = st.faceY := hb8
  have hfc : ({ s2 with
      framesLost := 0, framesTracked := s2.framesTracked + 1 } : Reflex.RC).faceConfidence =
      st.faceConfidence := hb9
  have hpp : ({ s2 with
      framesLost := 0, framesTracked := s2.framesTracked + 1 } : Reflex.RC).panPID = st.panPID := hb10
  have htp : ({ s2 with
      framesLost := 0, framesTracked := s2.framesTracked + 1 } : Reflex.RC).tiltPID = st.tiltPID := hb11
  obtain ⟨hU1, hU2⟩ := @Reflex.updatePredictiveTracking_deadband_hold fsqrt
    { s2 with framesLost := 0, framesTracked := s2.framesTracked + 1 }
    hct3
    (by rw [hfx, hfc]; exact hX)
    (by rw [hfy, hfc]; exact hY)
    (by rw [hpp]; exact hPanI)
    (by rw [hpp]; exact hPanE)
    (by rw [hpp]; exact hPanM)
    (by rw [htp]; exact hTiltI)
    (by rw [htp]; exact hTiltE)
    (by rw [htp]; exact hTiltM)
  rw [hU1, hU2]
  exact ⟨hb2, hb3⟩

/-- C3 counterexample: a concrete reachable run refuting the claim as
stated.  After enable, a face report at (110, 120) with confidence
defaulting to 100, and two 50 Hz ticks, the controller is in TRACK with
the report 10 px from centre — strictly inside the deadband (12 px at
confidence 100) — and the tick at t = 1060 passes the rate limiter; yet
that tick moves panAngle away from the current base angle 90, because the
pan PID carries a nonzero integral accumulator from the ACQUIRE tick (the
deadband zeroes the error, not the integral and derivative terms). -/
theorem c3_counterexample :
    Reflex.c3st.controlState = Reflex.ControlState.TRACK ∧
    Reflex.c3st.active = true ∧
    Reflex.c3st.dataIsStale = false ∧
    Reflex.c3st.blindState = Reflex.BlindState.NORMAL ∧
    ¬ (1060 - Reflex.c3st.lastUpdateTime < Reflex.REFLEX_UPDATE_RATE_MS) ∧
    |((Reflex.c3st.faceX - Reflex.CAMERA_CENTER_X : ℤ) : ℚ)| <
      ((12 + truncQ ((1 - (Reflex.c3st.faceConfidence : ℚ) / 100) * 8) : ℤ) : ℚ) ∧
    |((Reflex.c3st.faceY - Reflex.CAMERA_CENTER_Y : ℤ) : ℚ)| <
      ((12 + truncQ ((1 - (Reflex.c3st.faceConfidence : ℚ) / 100) * 8) : ℤ) : ℚ) ∧
    (Reflex.calculate Reflex.fsqrtEx 90 115 1060 Reflex.c3st).2.panAngle ≠ (90 : ℚ) := by
  norm_num +decide [Reflex.c3st, Reflex.c3ops, Reflex.runOps, Reflex.runOp, Reflex.rcReset, Reflex.enable,
    Reflex.updateFaceData, Reflex.updateFaceDataStore, Reflex.calculate,
    Reflex.blindStateStep, Reflex.stateMachineStep, Reflex.updatePredictiveTracking,
    Reflex.updateLost, Reflex.pidUpdate, Reflex.pidUpdateGains, Reflex.pidInit,
    Reflex.pidReset, Reflex.trajGetNextPosition, Reflex.trajInit, constrainZ,
    constrainQ, truncQ, Reflex.fsqrtEx, Reflex.CAMERA_FRAME_WIDTH,
    Reflex.CAMERA_FRAME_HEIGHT, Reflex.CAMERA_CENTER_X, Reflex.CAMERA_CENTER_Y,
    Reflex.STALE_DATA_THRESHOLD, Reflex.STALE_DATA_TIMEOUT_MS,
    Reflex.STALE_DATA_MAX_COUNT, Reflex.REFLEX_UPDATE_RATE_MS,
    Reflex.FRAMES_TO_ACQUIRE, Reflex.FRAMES_TO_TRACK, Reflex.FRAMES_TO_LOST,
    Reflex.ACQUIRE_THRESHOLD, Reflex.BLIND_IGNORE_FRAMES, Reflex.SETTLING_FRAMES,
    Reflex.SETTLING_GAIN_SCALE, Reflex.MAX_VELOCITY_PER_FRAME,
    Reflex.SMOOTHING_FACTOR, Reflex.REFERENCE_FACE_WIDTH, Reflex.CONTROL_DT,
    Reflex.LARGE_ERROR_KP, Reflex.LARGE_ERROR_KD, Reflex.MEDIUM_ERROR_KP,
    Reflex.MEDIUM_ERROR_KD, Reflex.BALANCED_KP, Reflex.BALANCED_KD,
    Reflex.PRECISE_KP, Reflex.PRECISE_KD, Reflex.BASE_MIN, Reflex.BASE_MAX,
    Reflex.NOD_MIN, Reflex.NOD_MAX, Reflex.BASE_CENTER, Reflex.NOD_CENTER]

/-- Witness for the amended claim C3: at a concrete TRACK state with clean
PID accumulators and the face 5 px from centre, the tick keeps both angles
at the handed-in current angles. -/
theorem c3_track_deadband_amended_witness :
    (Reflex.calculate Reflex.fsqrtEx 90 115 100 Reflex.c3wst).2.panAngle = (90 : ℚ) ∧
    (Reflex.calculate Reflex.fsqrtEx 90 115 100 Reflex.c3wst).2.tiltAngle = (115 : ℚ) :=
  c3_track_deadband_amended Reflex.fsqrtEx 90 115 100 Reflex.c3wst
    (by norm_num [Reflex.c3wst, Reflex.rcReset, Reflex.REFLEX_UPDATE_RATE_MS])
    (by norm_num +decide [Reflex.c3wst, Reflex.rcReset])
    (by norm_num +decide [Reflex.c3wst, Reflex.rcReset])
    (by norm_num +decide [Reflex.c3wst, Reflex.rcReset])
    (by norm_num +decide [Reflex.c3wst, Reflex.rcReset])
    (by norm_num [Reflex.c3wst, Reflex.rcReset, Reflex.CAMERA_CENTER_X, truncQ])
    (by norm_num [Reflex.c3wst, Reflex.rcReset, Reflex.CAMERA_CENTER_Y, truncQ])
    (by norm_num [Reflex.c3wst, Reflex.rcReset, Reflex.pidInit, Reflex.pidReset])
    (by norm_num [Reflex.c3wst, Reflex.rcReset, Reflex.pidInit, Reflex.pidReset])
    (by norm_num [Reflex.c3wst, Reflex.rcReset, Reflex.pidInit, Reflex.pidReset,
      Reflex.BALANCED_KP, Reflex.BALANCED_KD])
    (by norm_num [Reflex.c3wst, Reflex.rcReset, Reflex.pidInit, Reflex.pidReset])
    (by norm_num [Reflex.c3wst, Reflex.rcReset, Reflex.pidInit, Reflex.pidReset])
    (by norm_num [Reflex.c3wst, Reflex.rcReset, Reflex.pidInit, Reflex.pidReset,
      Reflex.BALANCED_KP, Reflex.BALANCED_KD])

namespace Reflex

theorem blindStateStep_core (st : RC) :
    (blindStateStep st).2.controlState = st.controlState ∧
    (blindStateStep st).2.active = st.active ∧
    (blindStateStep st).2.dataIsStale = st.dataIsStale ∧
    (blindStateStep st).2.framesLost = st.framesLost ∧
    (blindStateStep st).2.framesTracked = st.framesTracked ∧
    (blindStateStep st).2.lastUpdateTime = st.lastUpdateTime ∧
    (blindStateStep st).2.faceX = st.faceX ∧
    (blindStateStep st).2.faceY = st.faceY := by
  by_cases h1 : st.blindState ≠ BlindState.NORMAL
  · by_cases h2 : st.blindState = BlindState.BLIND_MOVING
    · by_cases h3 : st.blindFrameCounter + 1 ≤ BLIND_IGNORE_FRAMES
      · simp +decide only [blindStateStep, h2, if_pos h3, if_true, if_false,
          ite_true, ite_false, true_and]
      · simp +decide only [blindStateStep, h2, if_neg h3, if_true, if_false,
          ite_true, ite_false, true_and]
    · have h4 : st.blindState = BlindState.GENTLE_SETTLING := by
        cases hb : st.blindState
        · exact absurd hb h1
        · exact absurd hb h2
        · rfl
      by_cases h3 : st.blindFrameCounter + 1 > SETTLING_FRAMES
      · simp +decide only [blindStateStep, h4, if_pos h3, if_true, if_false,
          ite_true, ite_false, true_and]
      · simp +decide only [blindStateStep, h4, if_neg h3, if_true, if_false,
          ite_true, ite_false, true_and]
  · simp only [blindStateStep, if_neg h1]
    and_intros <;> trivial

theorem blindStateStep_stays_unblind {st : RC}
    (h : st.blindState ≠ BlindState.BLIND_MOVING) :
    (blindStateStep st).2.blindState ≠ BlindState.BLIND_MOVING := by
  by_cases h1 : st.blindState ≠ BlindState.NORMAL
  · have h4 : st.blindState = BlindState.GENTLE_SETTLING := by
      cases hb : st.blindState
      · exact absurd hb h1
      · exact absurd hb h
      · rfl
    by_cases h3 : st.blindFrameCounter + 1 > SETTLING_FRAMES
    · simp +decide only [blindStateStep, h4, if_pos h3, if_true, if_false,
        ite_true, ite_false, true_and]
    · simp +decide only [blindStateStep, h4, if_neg h3, if_true, if_false,
        ite_true, ite_false, true_and]
  · simp only [blindStateStep, if_neg h1]
    exact h

theorem updatePredictiveTracking_core (fsqrt : ℚ → ℚ) (st : RC) :
    (updatePredictiveTracking fsqrt st).active = st.active ∧
    (updatePredictiveTracking fsqrt st).dataIsStale = st.dataIsStale ∧
    (updatePredictiveTracking fsqrt st).controlState = st.controlState ∧
    (updatePredictiveTracking fsqrt st).blindState = st.blindState ∧
    (updatePredictiveTracking fsqrt st).framesLost = st.framesLost ∧
    (updatePredictiveTracking fsqrt st).framesTracked = st.framesTracked ∧
    (updatePredictiveTracking fsqrt st).lastUpdateTime = st.lastUpdateTime :=
  ⟨rfl, rfl, rfl, rfl, rfl, rfl, rfl⟩

theorem updateLost_core (fsqrt : ℚ → ℚ) (now : ℕ) (st : RC) :
    (updateLost fsqrt now st).active = st.active ∧
    (updateLost fsqrt now st).dataIsStale = st.dataIsStale ∧
    (updateLost fsqrt now st).controlState = st.controlState ∧
    (updateLost fsqrt now st).framesLost = st.framesLost ∧
    (updateLost fsqrt now st).framesTracked = st.framesTracked ∧
    (updateLost fsqrt now st).lastUpdateTime = st.lastUpdateTime := by
  simp only [updateLost]
  repeat' split
  all_goals and_intros <;> rfl

theorem stateMachineStep_undetected {st : RC}
    (hund : ¬(st.active = true ∧ st.dataIsStale = false)) :
    stateMachineStep st =
      (if st.framesLost + 1 ≥ FRAMES_TO_LOST then
        (if st.controlState ≠ ControlState.LOST then
          { st with framesTracked := 0, framesLost := st.framesLost + 1,
                    controlState := ControlState.LOST,
                    blindState := BlindState.NORMAL }
        else { st with framesTracked := 0, framesLost := st.framesLost + 1 })
      else { st with framesTracked := 0, framesLost := st.framesLost + 1 }) := by
  simp only [stateMachineStep]
  rw [if_neg (by simpa using hund)]

theorem stateMachineStep_core (st : RC) :
    (stateMachineStep st).active = st.active ∧
    (stateMachineStep st).dataIsStale = st.dataIsStale ∧
    (stateMachineStep st).lastUpdateTime = st.lastUpdateTime ∧
    (stateMachineStep st).panAngle = st.panAngle ∧
    (stateMachineStep st).tiltAngle = st.tiltAngle := by
  simp only [stateMachineStep]
  repeat' split
  all_goals and_intros <;> rfl

end Reflex

namespace Reflex

theorem stateMachineStep_lost_acquire {st : RC}
    (hAct : st.active = true) (hStale : st.dataIsStale = false)
    (hLost : st.controlState = ControlState.LOST)
    (hFt : st.framesTracked ≥ 0) :
    (stateMachineStep st).controlState = ControlState.ACQUIRE := by
  simp +decide only [stateMachineStep, hAct, hStale, hLost, if_true, ite_true,
    if_false, ite_false, true_and, and_true]
  rw [if_pos (by
    show FRAMES_TO_ACQUIRE ≤ st.framesTracked + 1
    simp only [FRAMES_TO_ACQUIRE]
    omega)]

theorem stateMachineStep_acquire_track {st : RC}
    (hAct : st.active = true) (hStale : st.dataIsStale = false)
    (hAcq : st.controlState = ControlState.ACQUIRE)
    (hFt : st.framesTracked ≥ FRAMES_TO_TRACK - 1)
    (hX : |((st.faceX - CAMERA_CENTER_X : ℤ) : ℚ)| < (ACQUIRE_THRESHOLD : ℚ))
    (hY : |((st.faceY - CAMERA_CENTER_Y : ℤ) : ℚ)| < (ACQUIRE_THRESHOLD : ℚ)) :
    (stateMachineStep st).controlState = ControlState.TRACK := by
  simp +decide only [stateMachineStep, hAct, hStale, hAcq, if_true, ite_true,
    if_false, ite_false, true_and, and_true, false_and]
  rw [if_pos (by
    show FRAMES_TO_TRACK ≤ st.framesTracked + 1
    simp only [FRAMES_TO_TRACK] at hFt ⊢
    omega)]
  rw [if_pos ⟨hX, hY⟩]

theorem calculate_lastUpdateTime (fsqrt : ℚ → ℚ) (b n : ℤ) (now : ℕ) (st : RC)
    (hRate : ¬ (now - st.lastUpdateTime < REFLEX_UPDATE_RATE_MS)) :
    (calculate fsqrt b n now st).2.lastUpdateTime = now := by
  simp only [calculate]
  rw [if_neg hRate]
  split
  case h_1 out st2 heq =>
    have hc := blindStateStep_core
      { st with lastUpdateTime := now, panAngle := (b : ℚ), tiltAngle := (n : ℚ) }
    rw [heq] at hc
    exact hc.2.2.2.2.2.1
  case h_2 st2 heq =>
    have hc := blindStateStep_core
      { st with lastUpdateTime := now, panAngle := (b : ℚ), tiltAngle := (n : ℚ) }
    rw [heq] at hc
    have hsm := (stateMachineStep_core st2).2.2.1
    show (if _ then updatePredictiveTracking fsqrt (stateMachineStep st2)
          else if _ then updateLost fsqrt now (stateMachineStep st2)
          else stateMachineStep st2).lastUpdateTime = now
    split
    · exact ((updatePredictiveTracking_core fsqrt _).2.2.2.2.2.2).trans
        (hsm.trans hc.2.2.2.2.2.1)
    · split
      · exact ((updateLost_core fsqrt now _).2.2.2.2.2).trans
          (hsm.trans hc.2.2.2.2.2.1)
      · exact hsm.trans hc.2.2.2.2.2.1

theorem calculate_activity (fsqrt : ℚ → ℚ) (b n : ℤ) (now : ℕ) (st : RC) :
    (calculate fsqrt b n now st).2.active = st.active ∧
    (calculate fsqrt b n now st).2.dataIsStale = st.dataIsStale := by
  simp only [calculate]
  split
  · exact ⟨rfl, rfl⟩
  · split
    case h_1 out st2 heq =>
      have hc := blindStateStep_core
        { st with lastUpdateTime := now, panAngle := (b : ℚ), tiltAngle := (n : ℚ) }
      rw [heq] at hc
      exact ⟨hc.2.1, hc.2.2.1⟩
    case h_2 st2 heq =>
      have hc := blindStateStep_core
        { st with lastUpdateTime := now, panAngle := (b : ℚ), tiltAngle := (n : ℚ) }
      rw [heq] at hc
      have hsm := stateMachineStep_core st2
      constructor
      · show (if _ then updatePredictiveTracking fsqrt (stateMachineStep st2)
            else if _ then updateLost fsqrt now (stateMachineStep st2)
            else stateMachineStep st2).active = st.active
        split
        · exact ((updatePredictiveTracking_core fsqrt _).1).trans
            (hsm.1.trans hc.2.1)
        · split
          · exact ((updateLost_core fsqrt now _).1).trans (hsm.1.trans hc.2.1)
          · exact hsm.1.trans hc.2.1
      · show (if _ then updatePredictiveTracking fsqrt (stateMachineStep st2)
            else if _ then updateLost fsqrt now (stateMachineStep st2)
            else stateMachineStep st2).dataIsStale = st.dataIsStale
        split
        · exact ((updatePredictiveTracking_core fsqrt _).2.1).trans
            (hsm.2.1.trans hc.2.2.1)
        · split
          · exact ((updateLost_core fsqrt now _).2.1).trans
              (hsm.2.1.trans hc.2.2.1)
          · exact hsm.2.1.trans hc.2.2.1

end Reflex

namespace Reflex

theorem calculate_lost_stays (fsqrt : ℚ → ℚ) (b n : ℤ) (now : ℕ) (st : RC)
    (hund : ¬(st.active = true ∧ st.dataIsStale = false))
    (hRate : ¬ (now - st.lastUpdateTime < REFLEX_UPDATE_RATE_MS))
    (hLost : st.controlState = ControlState.LOST) :
    (calculate fsqrt b n now st).2.controlState = ControlState.LOST := by
  simp only [calculate]
  rw [if_neg hRate]
  split
  case h_1 out st2 heq =>
    have hc := blindStateStep_core
      { st with lastUpdateTime := now, panAngle := (b : ℚ), tiltAngle := (n : ℚ) }
    rw [heq] at hc
    exact hc.1.trans hLost
  case h_2 st2 heq =>
    have hc := blindStateStep_core
      { st with lastUpdateTime := now, panAngle := (b : ℚ), tiltAngle := (n : ℚ) }
    rw [heq] at hc
    have hund2 : ¬(st2.active = true ∧ st2.dataIsStale = false) := by
      rw [hc.2.1, hc.2.2.1]
      exact hund
    have hL2 : st2.controlState = ControlState.LOST := hc.1.trans hLost
    have hsm3 : (stateMachineStep st2).controlState = ControlState.LOST := by
      rw [stateMachineStep_undetected hund2]
      split
      · split
        · rfl
        · exact hL2
      · exact hL2
    rw [if_neg (by rw [hsm3]; decide), if_pos hsm3]
    exact ((updateLost_core fsqrt now _).2.2.1).trans hsm3

theorem calculate_undetected_step (fsqrt : ℚ → ℚ) (b n : ℤ) (now : ℕ) (st : RC)
    (hund : ¬(st.active = true ∧ st.dataIsStale = false))
    (hRate : ¬ (now - st.lastUpdateTime < REFLEX_UPDATE_RATE_MS))
    (hNL : st.controlState ≠ ControlState.LOST)
    (hNM : st.blindState ≠ BlindState.BLIND_MOVING) :
    (calculate fsqrt b n now st).2.framesLost = st.framesLost + 1 ∧
    (st.framesLost + 1 ≥ FRAMES_TO_LOST →
      (calculate fsqrt b n now st).2.controlState = ControlState.LOST) ∧
    (st.framesLost + 1 < FRAMES_TO_LOST →
      (calculate fsqrt b n now st).2.controlState = st.controlState ∧
      (calculate fsqrt b n now st).2.blindState ≠ BlindState.BLIND_MOVING) := by
  simp only [calculate]
  rw [if_neg hRate]
  obtain ⟨hb1, -⟩ := @blindStateStep_not_moving
    { st with lastUpdateTime := now,
              panAngle := (b : ℚ), tiltAngle := (n : ℚ) } hNM
  have hpair : blindStateStep
      { st with lastUpdateTime := now,
                panAngle := (b : ℚ), tiltAngle := (n : ℚ) } =
      (none, (blindStateStep
        { st with lastUpdateTime := now,
                  panAngle := (b : ℚ), tiltAngle := (n : ℚ) }).2) := by
    rw [← hb1]
  rw [hpair]
  dsimp only
  set s2 : RC := (blindStateStep
    { st with lastUpdateTime := now,
              panAngle := (b : ℚ), tiltAngle := (n : ℚ) }).2 with hs2
  have hc := blindStateStep_core
    { st with lastUpdateTime := now, panAngle := (b : ℚ), tiltAngle := (n : ℚ) }
  rw [← hs2] at hc
  have hub := @blindStateStep_stays_unblind
    { st with lastUpdateTime := now,
              panAngle := (b : ℚ), tiltAngle := (n : ℚ) } hNM
  rw [← hs2] at hub
  have hund2 : ¬(s2.active = true ∧ s2.dataIsStale = false) := by
    rw [hc.2.1, hc.2.2.1]
    exact hund
  have hflS : s2.framesLost = st.framesLost := hc.2.2.2.1
  have hsmFL : (stateMachineStep s2).framesLost = st.framesLost + 1 := by
    rw [stateMachineStep_undetected hund2]
    split
    · split
      · show s2.framesLost + 1 = st.framesLost + 1
        rw [hflS]
      · show s2.framesLost + 1 = st.framesLost + 1
        rw [hflS]
    · show s2.framesLost + 1 = st.framesLost + 1
      rw [hflS]
  by_cases h10 : st.framesLost + 1 ≥ FRAMES_TO_LOST
  · have hsm3 : (stateMachineStep s2).controlState = ControlState.LOST := by
      rw [stateMachineStep_undetected hund2]
      rw [if_pos (by rw [hflS]; exact h10)]
      rw [if_pos (by
        show ¬ s2.controlState = ControlState.LOST
        rw [hc.1]
        exact hNL)]
    rw [if_neg (by rw [hsm3]; decide), if_pos hsm3]
    refine ⟨((updateLost_core fsqrt now _).2.2.2.1).trans hsmFL, fun _ => ?_,
      fun hlt => absurd h10 (by omega)⟩
    exact ((updateLost_core fsqrt now _).2.2.1).trans hsm3
  · have hsmC2 : (stateMachineStep s2).controlState = st.controlState := by
      rw [stateMachineStep_undetected hund2]
      rw [if_neg (by rw [hflS]; exact h10)]
      exact hc.1
    have hsmBl : (stateMachineStep s2).blindState = s2.blindState := by
      rw [stateMachineStep_undetected hund2]
      rw [if_neg (by rw [hflS]; exact h10)]
    have hctor : (stateMachineStep s2).controlState = ControlState.ACQUIRE ∨
        (stateMachineStep s2).controlState = ControlState.TRACK := by
      rw [hsmC2]
      cases hcs : st.controlState
      · exact absurd hcs hNL
      · exact Or.inl rfl
      · exact Or.inr rfl
    rw [if_pos hctor]
    refine ⟨((updatePredictiveTracking_core fsqrt _).2.2.2.2.1).trans hsmFL,
      fun hge => absurd hge (by omega), fun _ => ⟨?_, ?_⟩⟩
    · exact ((updatePredictiveTracking_core fsqrt _).2.2.1).trans hsmC2
    · rw [(updatePredictiveTracking_core fsqrt _).2.2.2.1, hsmBl]
      exact hub

theorem calculate_lost_to_acquire (fsqrt : ℚ → ℚ) (b n : ℤ) (now : ℕ) (st : RC)
    (hAct : st.active = true) (hStale : st.dataIsStale = false)
    (hRate : ¬ (now - st.lastUpdateTime < REFLEX_UPDATE_RATE_MS))
    (hNM : st.blindState ≠ BlindState.BLIND_MOVING)
    (hLost : st.controlState = ControlState.LOST)
    (hFt : st.framesTracked ≥ 0) :
    (calculate fsqrt b n now st).2.controlState = ControlState.ACQUIRE := by
  simp only [calculate]
  rw [if_neg hRate]
  obtain ⟨hb1, -⟩ := @blindStateStep_not_moving
    { st with lastUpdateTime := now,
              panAngle := (b : ℚ), tiltAngle := (n : ℚ) } hNM
  have hpair : blindStateStep
      { st with lastUpdateTime := now,
                panAngle := (b : ℚ), tiltAngle := (n : ℚ) } =
      (none, (blindStateStep
        { st with lastUpdateTime := now,
                  panAngle := (b : ℚ), tiltAngle := (n : ℚ) }).2) := by
    rw [← hb1]
  rw [hpair]
  dsimp only
  set s2 : RC := (blindStateStep
    { st with lastUpdateTime := now,
              panAngle := (b : ℚ), tiltAngle := (n : ℚ) }).2 with hs2
  have hc := blindStateStep_core
    { st with lastUpdateTime := now, panAngle := (b : ℚ), tiltAngle := (n : ℚ) }
  rw [← hs2] at hc
  have hsm : (stateMachineStep s2).controlState = ControlState.ACQUIRE :=
    stateMachineStep_lost_acquire (hc.2.1.trans hAct) (hc.2.2.1.trans hStale)
      (hc.1.trans hLost) (by rw [hc.2.2.2.2.1]; exact hFt)
  rw [if_pos (Or.inl hsm)]
  exact ((updatePredictiveTracking_core fsqrt _).2.2.1).trans hsm

theorem calculate_acquire_to_track (fsqrt : ℚ → ℚ) (b n : ℤ) (now : ℕ) (st : RC)
    (hAct : st.active = true) (hStale : st.dataIsStale = false)
    (hRate : ¬ (now - st.lastUpdateTime < REFLEX_UPDATE_RATE_MS))
    (hNM : st.blindState ≠ BlindState.BLIND_MOVING)
    (hAcq : st.controlState = ControlState.ACQUIRE)
    (hFt : st.framesTracked ≥ FRAMES_TO_TRACK - 1)
    (hX : |((st.faceX - CAMERA_CENTER_X : ℤ) : ℚ)| < (ACQUIRE_THRESHOLD : ℚ))
    (hY : |((st.faceY - CAMERA_CENTER_Y : ℤ) : ℚ)| < (ACQUIRE_THRESHOLD : ℚ)) :
    (calculate fsqrt b n now st).2.controlState = ControlState.TRACK := by
  simp only [calculate]
  rw [if_neg hRate]
  obtain ⟨hb1, -⟩ := @blindStateStep_not_moving
    { st with lastUpdateTime := now,
              panAngle := (b : ℚ), tiltAngle := (n : ℚ) } hNM
  have hpair : blindStateStep
      { st with lastUpdateTime := now,
                panAngle := (b : ℚ), tiltAngle := (n : ℚ) } =
      (none, (blindStateStep
        { st with lastUpdateTime := now,
                  panAngle := (b : ℚ), tiltAngle := (n : ℚ) }).2) := by
    rw [← hb1]
  rw [hpair]
  dsimp only
  set s2 : RC := (blindStateStep
    { st with lastUpdateTime := now,
              panAngle := (b : ℚ), tiltAngle := (n : ℚ) }).2 with hs2
  have hc := blindStateStep_core
    { st with lastUpdateTime := now, panAngle := (b : ℚ), tiltAngle := (n : ℚ) }
  rw [← hs2] at hc
  have hsm : (stateMachineStep s2).controlState = ControlState.TRACK :=
    stateMachineStep_acquire_track (hc.2.1.trans hAct) (hc.2.2.1.trans hStale)
      (hc.1.trans hAcq) (by rw [hc.2.2.2.2.1]; exact hFt)
      (by rw [hc.2.2.2.2.2.2.1]; exact hX)
      (by rw [hc.2.2.2.2.2.2.2]; exact hY)
  rw [if_pos (Or.inr hsm)]
  exact ((updatePredictiveTracking_core fsqrt _).2.2.1).trans hsm

theorem runCalcs_stays_lost (fsqrt : ℚ → ℚ) :
    ∀ (ticks : List (ℤ × ℤ × ℕ)) (st : RC),
    ¬(st.active = true ∧ st.dataIsStale = false) →
    CalcTimesOK st.lastUpdateTime ticks →
    st.controlState = ControlState.LOST →
    (runCalcs fsqrt ticks st).controlState = ControlState.LOST := by
  intro ticks
  induction ticks with
  | nil => intro st _ _ hL; exact hL
  | cons t ts ih =>
    intro st hund hTimes hL
    obtain ⟨hT1, hT2⟩ := hTimes
    have hRate : ¬ (t.2.2 - st.lastUpdateTime < REFLEX_UPDATE_RATE_MS) := by
      have h20 : REFLEX_UPDATE_RATE_MS = 20 := rfl
      omega
    show (runCalcs fsqrt ts (calculate fsqrt t.1 t.2.1 t.2.2 st).2).controlState =
      ControlState.LOST
    have hact := calculate_activity fsqrt t.1 t.2.1 t.2.2 st
    refine ih _ ?_ ?_ ?_
    · rw [hact.1, hact.2]
      exact hund
    · rw [calculate_lastUpdateTime fsqrt t.1 t.2.1 t.2.2 st hRate]
      exact hT2
    · exact calculate_lost_stays fsqrt t.1 t.2.1 t.2.2 st hund hRate hL

theorem runCalcs_to_lost (fsqrt : ℚ → ℚ) :
    ∀ (ticks : List (ℤ × ℤ × ℕ)) (st : RC),
    ¬(st.active = true ∧ st.dataIsStale = false) →
    CalcTimesOK st.lastUpdateTime ticks →
    (st.controlState = ControlState.LOST ∨
      (st.blindState ≠ BlindState.BLIND_MOVING ∧ 0 ≤ st.framesLost)) →
    FRAMES_TO_LOST ≤ st.framesLost + (ticks.length : ℤ) →
    1 ≤ ticks.length →
    (runCalcs fsqrt ticks st).controlState = ControlState.LOST := by
  intro ticks
  induction ticks with
  | nil => intro st _ _ _ _ hlen; exact absurd hlen (by norm_num)
  | cons t ts ih =>
    intro st hund hTimes hQ hBound _
    obtain ⟨hT1, hT2⟩ := hTimes
    have hRate : ¬ (t.2.2 - st.lastUpdateTime < REFLEX_UPDATE_RATE_MS) := by
      have h20 : REFLEX_UPDATE_RATE_MS = 20 := rfl
      omega
    have hact := calculate_activity fsqrt t.1 t.2.1 t.2.2 st
    have hund' : ¬((calculate fsqrt t.1 t.2.1 t.2.2 st).2.active = true ∧
        (calculate fsqrt t.1 t.2.1 t.2.2 st).2.dataIsStale = false) := by
      rw [hact.1, hact.2]
      exact hund
    have hTimes' : CalcTimesOK
        (calculate fsqrt t.1 t.2.1 t.2.2 st).2.lastUpdateTime ts := by
      rw [calculate_lastUpdateTime fsqrt t.1 t.2.1 t.2.2 st hRate]
      exact hT2
    by_cases hL0 : st.controlState = ControlState.LOST
    · exact runCalcs_stays_lost fsqrt (t :: ts) st hund ⟨hT1, hT2⟩ hL0
    · have hNM : st.blindState ≠ BlindState.BLIND_MOVING := by
        rcases hQ with hL | ⟨hB, -⟩
        · exact absurd hL hL0
        · exact hB
      have hfl0 : 0 ≤ st.framesLost := by
        rcases hQ with hL | ⟨-, hf⟩
        · exact absurd hL hL0
        · exact hf
      have step := calculate_undetected_step fsqrt t.1 t.2.1 t.2.2 st hund hRate hL0 hNM
      by_cases h10 : st.framesLost + 1 ≥ FRAMES_TO_LOST
      · have hL' := step.2.1 h10
        exact runCalcs_stays_lost fsqrt ts _ hund' hTimes' hL'
      · obtain ⟨hC', hB'⟩ := step.2.2 (by omega)
        have hFL10 : FRAMES_TO_LOST = 10 := rfl
        have hlen : (ts.length : ℤ) ≥ 1 := by
          have := List.length_cons t ts
          omega
        refine ih _ hund' hTimes' (Or.inr ⟨hB', ?_⟩) ?_ ?_
        · rw [step.1]
          omega
        · rw [step.1]
          have := List.length_cons t ts
          omega
        · omega

end Reflex

/-- C4: iterating calculate at the tick rate, with a tick counted as a
valid-update tick exactly when the stored face data is active and not stale
(the code's faceDetected): (a) from LOST, a tick with no valid update
leaves the state LOST; (b) one valid-update tick (FRAMES_TO_ACQUIRE = 1)
moves LOST to ACQUIRE; (c) a further valid-update tick reaching
FRAMES_TO_TRACK = 2 consecutive tracked frames with both pixel errors below
ACQUIRE_THRESHOLD = 20 px moves ACQUIRE to TRACK; (d) FRAMES_TO_LOST = 10
consecutive ticks without a valid update move any state to LOST.  Parts
(b)-(d) assume the blind machine is not in its BLIND_MOVING early-return
phase (equivalently, for (d), that the state is already LOST), and the
frame counters are nonnegative, as they are in every reachable state. -/
theorem c4_state_machine_transitions (fsqrt : ℚ → ℚ) :
    (∀ (b n : ℤ) (now : ℕ) (st : Reflex.RC),
      ¬(st.active = true ∧ st.dataIsStale = false) →
      ¬(now - st.lastUpdateTime < Reflex.REFLEX_UPDATE_RATE_MS) →
      st.controlState = Reflex.ControlState.LOST →
      (Reflex.calculate fsqrt b n now st).2.controlState =
        Reflex.ControlState.LOST) ∧
    (∀ (b n : ℤ) (now : ℕ) (st : Reflex.RC),
      st.active = true → st.dataIsStale = false →
      ¬(now - st.lastUpdateTime < Reflex.REFLEX_UPDATE_RATE_MS) →
      st.blindState ≠ Reflex.BlindState.BLIND_MOVING →
      st.controlState = Reflex.ControlState.LOST →
      st.framesTracked ≥ 0 →
      (Reflex.calculate fsqrt b n now st).2.controlState =
        Reflex.ControlState.ACQUIRE) ∧
    (∀ (b n : ℤ) (now : ℕ) (st : Reflex.RC),
      st.active = true → st.dataIsStale = false →
      ¬(now - st.lastUpdateTime < Reflex.REFLEX_UPDATE_RATE_MS) →
      st.blindState ≠ Reflex.BlindState.BLIND_MOVING →
      st.controlState = Reflex.ControlState.ACQUIRE →
      st.framesTracked ≥ Reflex.FRAMES_TO_TRACK - 1 →
      |((st.faceX - Reflex.CAMERA_CENTER_X : ℤ) : ℚ)| <
        (Reflex.ACQUIRE_THRESHOLD : ℚ) →
      |((st.faceY - Reflex.CAMERA_CENTER_Y : ℤ) : ℚ)| <
        (Reflex.ACQUIRE_THRESHOLD : ℚ) →
      (Reflex.calculate fsqrt b n now st).2.controlState =
        Reflex.ControlState.TRACK) ∧
    (∀ (ticks : List (ℤ × ℤ × ℕ)) (st : Reflex.RC),
      ¬(st.active = true ∧ st.dataIsStale = false) →
      Reflex.CalcTimesOK st.lastUpdateTime ticks →
      (st.controlState = Reflex.ControlState.LOST ∨
        (st.blindState ≠ Reflex.BlindState.BLIND_MOVING ∧ 0 ≤ st.framesLost)) →
      (ticks.length : ℤ) = Reflex.FRAMES_TO_LOST →
      (Reflex.runCalcs fsqrt ticks st).controlState =
        Reflex.ControlState.LOST) := by
  refine ⟨?_, ?_, ?_, ?_⟩
  · intro b n now st hund hRate hLost
    exact Reflex.calculate_lost_stays fsqrt b n now st hund hRate hLost
  · intro b n now st hAct hStale hRate hNM hLost hFt
    exact Reflex.calculate_lost_to_acquire fsqrt b n now st hAct hStale hRate hNM
      hLost hFt
  · intro b n now st hAct hStale hRate hNM hAcq hFt hX hY
    exact Reflex.calculate_acquire_to_track fsqrt b n now st hAct hStale hRate hNM
      hAcq hFt hX hY
  · intro ticks st hund hTimes hQ hLen
    have hfl0 : 0 ≤ st.framesLost ∨ st.controlState = Reflex.ControlState.LOST := by
      rcases hQ with hL | ⟨-, hf⟩
      · exact Or.inr hL
      · exact Or.inl hf
    have hFL10 : Reflex.FRAMES_TO_LOST = 10 := rfl
    rcases hfl0 with hf | hL
    · exact Reflex.runCalcs_to_lost fsqrt ticks st hund hTimes hQ (by omega)
        (by omega)
    · exact Reflex.runCalcs_stays_lost fsqrt ticks st hund hTimes hL

/-- Witness for C4: each transition exercised at a concrete state — a reset
state stays LOST over a missed tick; an active fresh report moves LOST to
ACQUIRE in one tick; an ACQUIRE state with one tracked frame and the face
10 px from centre moves to TRACK; and from TRACK, ten properly spaced ticks
without a face feed reach LOST. -/
theorem c4_state_machine_transitions_witness :
    (Reflex.calculate Reflex.fsqrtEx 90 115 100 Reflex.rcReset).2.controlState =
      Reflex.ControlState.LOST ∧
    (Reflex.calculate Reflex.fsqrtEx 90 115 100 Reflex.c4bst).2.controlState =
      Reflex.ControlState.ACQUIRE ∧
    (Reflex.calculate Reflex.fsqrtEx 90 115 100 Reflex.c4cst).2.controlState =
      Reflex.ControlState.TRACK ∧
    (Reflex.runCalcs Reflex.fsqrtEx Reflex.c4ticks Reflex.c4dst).controlState =
      Reflex.ControlState.LOST :=
  ⟨(c4_state_machine_transitions Reflex.fsqrtEx).1 90 115 100 Reflex.rcReset
      (by decide) (by decide) (by decide),
   (c4_state_machine_transitions Reflex.fsqrtEx).2.1 90 115 100 Reflex.c4bst
      (by decide) (by decide) (by decide) (by decide) (by decide) (by decide),
   (c4_state_machine_transitions Reflex.fsqrtEx).2.2.1 90 115 100 Reflex.c4cst
      (by decide) (by decide) (by decide) (by decide) (by decide) (by decide)
      (by norm_num [Reflex.c4cst, Reflex.rcReset, Reflex.CAMERA_CENTER_X,
        Reflex.ACQUIRE_THRESHOLD])
      (by norm_num [Reflex.c4cst, Reflex.rcReset, Reflex.CAMERA_CENTER_Y,
        Reflex.ACQUIRE_THRESHOLD]),
   (c4_state_machine_transitions Reflex.fsqrtEx).2.2.2 Reflex.c4ticks Reflex.c4dst
      (by decide)
      (by norm_num [Reflex.CalcTimesOK, Reflex.c4ticks, Reflex.c4dst,
        Reflex.rcReset, Reflex.REFLEX_UPDATE_RATE_MS])
      (by norm_num +decide [Reflex.c4dst, Reflex.rcReset])
      (by norm_num [Reflex.c4ticks, Reflex.FRAMES_TO_LOST])⟩

/-- Counterexample to C8: disable() does not zero PID accumulators or frame
counters, and invalidate() does not clear the quality/confidence history or
the histogram-only frame budget — both survive the calls intact. -/
theorem c8_counterexample :
    (Reflex.disable Reflex.c8rc).panPID.integral = 3 ∧
    (Reflex.disable Reflex.c8rc).framesTracked = 5 ∧
    (Hist.invalidate Hist.c8ht).historyCount = 3 ∧
    (Hist.invalidate Hist.c8ht).histogramOnlyFrames = 4 := by
  refine ⟨?_, ?_, ?_, ?_⟩ <;>
    norm_num [Reflex.disable, Reflex.c8rc, Reflex.rcReset, Hist.invalidate,
      Hist.c8ht, Hist.htReset]

/-- C8 amended: disable() clears only the activation flags — shouldBeActive
and active go false, isSettled is cleared when the call actually
deactivates — and leaves the PID controllers, frame counters, control state
and tracking quality untouched; invalidate() clears only signatureValid,
leaving the signature histograms, history ring and counters untouched.  A
subsequent enable() therefore resumes with the residual tracking state
still in place (the full reset() is a separate call). -/
theorem c8_disable_invalidate_amended (st : Reflex.RC) (ht : Hist.HT) :
    (Reflex.disable st).shouldBeActive = false ∧
    (Reflex.disable st).active = false ∧
    (Reflex.disable st).isSettled = (!st.active && st.isSettled) ∧
    (Reflex.disable st).panPID = st.panPID ∧
    (Reflex.disable st).tiltPID = st.tiltPID ∧
    (Reflex.disable st).framesTracked = st.framesTracked ∧
    (Reflex.disable st).framesLost = st.framesLost ∧
    (Reflex.disable st).controlState = st.controlState ∧
    (Reflex.disable st).trackingQuality = st.trackingQuality ∧
    (Reflex.disable st).updateCount = st.updateCount ∧
    (Hist.invalidate ht).signatureValid = false ∧
    (Hist.invalidate ht).historyCount = ht.historyCount ∧
    (Hist.invalidate ht).confidenceHistory = ht.confidenceHistory ∧
    (Hist.invalidate ht).histogramOnlyFrames = ht.histogramOnlyFrames ∧
    (Hist.invalidate ht).consecutiveCollapses = ht.consecutiveCollapses ∧
    (Hist.invalidate ht).signatureHistTop = ht.signatureHistTop := by
  by_cases h : st.active = true <;>
    simp [Reflex.disable, Hist.invalidate, h]

/-- C6: with a valid, nonempty signature whose age exceeds
SIGNATURE_MAX_AGE_MS = 1200 ms, track() returns failure and marks the
signature invalid, and the result is the same for every frame, predicted
position, servo speed and square-root routine — no candidate is ever
evaluated. -/
theorem c6_signature_age_ceiling (fsqrt : ℚ → ℚ) (frame : Hist.Frame)
    (px py : ℤ) (sp : ℚ) (now : ℕ) (st : Hist.HT)
    (hValid : st.signatureValid = true)
    (hCount : st.signaturePixelCount ≠ 0)
    (hAge : now - st.signatureTime > Hist.SIGNATURE_MAX_AGE_MS) :
    Hist.track fsqrt frame px py sp now st =
      (none, { st with signatureValid := false }) := by
  have h1 : ¬(st.signatureValid = false ∨ st.signaturePixelCount = 0) := by
    rw [hValid]; simp [hCount]
  rw [Hist.track, if_neg h1, if_pos hAge]

/-- Witness for C6: a one-pixel signature built at time 0 queried at time
2000 on the all-zero frame fails and is invalidated. -/
theorem c6_signature_age_ceiling_witness :
    Hist.track Reflex.fsqrtEx Hist.zeroFrame 120 120 0 2000 Hist.htValid =
      (none, { Hist.htValid with signatureValid := false }) :=
  c6_signature_age_ceiling Reflex.fsqrtEx Hist.zeroFrame 120 120 0 2000
    Hist.htValid (by decide) (by decide) (by decide)

theorem updateFaceDataStore_flags (x y size d : ℤ) (now : ℕ) (st : Reflex.RC) :
    (Reflex.updateFaceDataStore x y size d now st).dataIsStale =
      st.dataIsStale ∧
    (Reflex.updateFaceDataStore x y size d now st).active =
      (if st.shouldBeActive = true ∧ st.active = false ∧ st.dataIsStale = false
       then true else st.active) ∧
    (Reflex.updateFaceDataStore x y size d now st).shouldBeActive =
      st.shouldBeActive ∧
    (Reflex.updateFaceDataStore x y size d now st).faceX = x ∧
    (Reflex.updateFaceDataStore x y size d now st).faceY = y ∧
    (Reflex.updateFaceDataStore x y size d now st).faceSize = size ∧
    (Reflex.updateFaceDataStore x y size d now st).faceDistance = d ∧
    (Reflex.updateFaceDataStore x y size d now st).lastFaceTime = now := by
  simp only [Reflex.updateFaceDataStore]
  repeat' split
  all_goals simp_all

/-- C7: the stale-feed guard.  (a) A report whose clamped coordinates move
by fewer than STALE_DATA_THRESHOLD = 3 px in combined absolute change, once
the incremented consecutive-stale counter exceeds STALE_DATA_MAX_COUNT = 5
or the time since the last real change exceeds STALE_DATA_TIMEOUT_MS =
300 ms, marks the feed stale, forces active to false, bumps only the stale
counter, and leaves faceX, faceY, faceSize, faceDistance and lastFaceTime
unchanged.  (b) Once latched (stale and inactive), any further
below-threshold report keeps the feed stale and the tracker inactive.
(c) calculate never reactivates the tracker or clears the stale flag.
(d) A report moving by at least the threshold clears the stale flag and,
when the operator intent shouldBeActive is set, reactivates the tracker. -/
theorem c7_stale_feed_forces_deactivation :
    (∀ (x y size d : ℤ) (now : ℕ) (st : Reflex.RC),
      |constrainZ x 0 Reflex.CAMERA_FRAME_WIDTH - st.prevFaceX| +
        |constrainZ y 0 Reflex.CAMERA_FRAME_HEIGHT - st.prevFaceY| <
          Reflex.STALE_DATA_THRESHOLD →
      (now - st.lastChangeTime > Reflex.STALE_DATA_TIMEOUT_MS ∨
        st.staleDataCount + 1 > Reflex.STALE_DATA_MAX_COUNT) →
      (Reflex.updateFaceData x y size d now st).dataIsStale = true ∧
      (Reflex.updateFaceData x y size d now st).active = false ∧
      (Reflex.updateFaceData x y size d now st).staleDataCount =
        st.staleDataCount + 1 ∧
      (Reflex.updateFaceData x y size d now st).faceX = st.faceX ∧
      (Reflex.updateFaceData x y size d now st).faceY = st.faceY ∧
      (Reflex.updateFaceData x y size d now st).faceSize = st.faceSize ∧
      (Reflex.updateFaceData x y size d now st).faceDistance =
        st.faceDistance ∧
      (Reflex.updateFaceData x y size d now st).lastFaceTime =
        st.lastFaceTime) ∧
    (∀ (x y size d : ℤ) (now : ℕ) (st : Reflex.RC),
      st.dataIsStale = true → st.active = false →
      |constrainZ x 0 Reflex.CAMERA_FRAME_WIDTH - st.prevFaceX| +
        |constrainZ y 0 Reflex.CAMERA_FRAME_HEIGHT - st.prevFaceY| <
          Reflex.STALE_DATA_THRESHOLD →
      (Reflex.updateFaceData x y size d now st).dataIsStale = true ∧
      (Reflex.updateFaceData x y size d now st).active = false) ∧
    (∀ (fsqrt : ℚ → ℚ) (b n : ℤ) (now : ℕ) (st : Reflex.RC),
      st.active = false →
      (Reflex.calculate fsqrt b n now st).2.active = false ∧
      (Reflex.calculate fsqrt b n now st).2.dataIsStale = st.dataIsStale) ∧
    (∀ (x y size d : ℤ) (now : ℕ) (st : Reflex.RC),
      |constrainZ x 0 Reflex.CAMERA_FRAME_WIDTH - st.prevFaceX| +
        |constrainZ y 0 Reflex.CAMERA_FRAME_HEIGHT - st.prevFaceY| ≥
          Reflex.STALE_DATA_THRESHOLD →
      (Reflex.updateFaceData x y size d now st).dataIsStale = false ∧
      (st.shouldBeActive = true →
        (Reflex.updateFaceData x y size d now st).active = true)) := by
  refine ⟨?_, ?_, ?_, ?_⟩
  · intro x y size d now st h1 h2
    simp only [Reflex.updateFaceData]
    rw [if_neg (not_le.mpr h1)]
    rw [if_pos h2]
    split
    case isTrue h => and_intros <;> rfl
    case isFalse h =>
      refine ⟨rfl, ?_, rfl, rfl, rfl, rfl, rfl, rfl⟩
      simpa using h
  · intro x y size d now st hStale hInact hChange
    simp only [Reflex.updateFaceData]
    rw [if_neg (not_le.mpr hChange)]
    by_cases hc : now - st.lastChangeTime > Reflex.STALE_DATA_TIMEOUT_MS ∨
        st.staleDataCount + 1 > Reflex.STALE_DATA_MAX_COUNT
    · rw [if_pos hc]
      split
      next h => exact ⟨rfl, rfl⟩
      next h => exact ⟨rfl, hInact⟩
    · rw [if_neg hc]
      have hf := updateFaceDataStore_flags
        (constrainZ x 0 Reflex.CAMERA_FRAME_WIDTH)
        (constrainZ y 0 Reflex.CAMERA_FRAME_HEIGHT) size d now
        { st with staleDataCount := st.staleDataCount + 1 }
      refine ⟨?_, ?_⟩
      · rw [hf.1]; exact hStale
      · rw [hf.2.1]
        dsimp only
        rw [if_neg (by rw [hStale]; simp)]
        exact hInact
  · intro fsqrt b n now st hInact
    have hc := Reflex.calculate_activity fsqrt b n now st
    exact ⟨hc.1.trans hInact, hc.2⟩
  · intro x y size d now st hChange
    simp only [Reflex.updateFaceData]
    rw [if_pos hChange]
    have hf := updateFaceDataStore_flags
      (constrainZ x 0 Reflex.CAMERA_FRAME_WIDTH)
      (constrainZ y 0 Reflex.CAMERA_FRAME_HEIGHT) size d now
      { st with prevFaceX := constrainZ x 0 Reflex.CAMERA_FRAME_WIDTH,
                prevFaceY := constrainZ y 0 Reflex.CAMERA_FRAME_HEIGHT,
                lastChangeTime := now, staleDataCount := 0,
                dataIsStale := false }
    refine ⟨hf.1, ?_⟩
    intro hSBA
    rw [hf.2.1]
    dsimp only
    cases hA : st.active with
    | false => rw [if_pos ⟨hSBA, rfl, rfl⟩]
    | true => rw [if_neg (by simp)]

/-- Witness for C7: concrete runs of each part — a sixth unchanged report
latches the feed stale and deactivates; a further unchanged report keeps
the latch; a control tick on an inactive state stays inactive; a report
moving 50 px clears the stale flag and reactivates. -/
theorem c7_stale_feed_forces_deactivation_witness :
    (Reflex.updateFaceData 100 101 50 60 100 Reflex.c7st1).dataIsStale = true ∧
    (Reflex.updateFaceData 100 101 50 60 100 Reflex.c7st1).active = false ∧
    (Reflex.updateFaceData 100 101 50 60 100 Reflex.c7st1).faceX =
      Reflex.c7st1.faceX ∧
    (Reflex.updateFaceData 100 100 50 60 200 Reflex.c7st2).dataIsStale = true ∧
    (Reflex.updateFaceData 100 100 50 60 200 Reflex.c7st2).active = false ∧
    (Reflex.calculate Reflex.fsqrtEx 90 115 100 Reflex.rcReset).2.active =
      false ∧
    (Reflex.updateFaceData 150 100 50 60 300 Reflex.c7st4).dataIsStale =
      false ∧
    (Reflex.updateFaceData 150 100 50 60 300 Reflex.c7st4).active = true := by
  have h1 := c7_stale_feed_forces_deactivation.1 100 101 50 60 100 Reflex.c7st1
    (by decide) (by decide)
  have h2 := c7_stale_feed_forces_deactivation.2.1 100 100 50 60 200
    Reflex.c7st2 (by decide) (by decide) (by decide)
  have h3 := c7_stale_feed_forces_deactivation.2.2.1 Reflex.fsqrtEx 90 115 100
    Reflex.rcReset (by decide)
  have h4 := c7_stale_feed_forces_deactivation.2.2.2 150 100 50 60 300
    Reflex.c7st4 (by decide)
  exact ⟨h1.1, h1.2.1, h1.2.2.2.1, h2.1, h2.2, h3.1, h4.1, h4.2 (by decide)⟩

theorem foldl_preserve {α β : Type} (P : α → Prop) (f : α → β → α)
    (h : ∀ a b, P a → P (f a b)) :
    ∀ (l : List β) (a : α), P a → P (l.foldl f a) := by
  intro l
  induction l with
  | nil => intro a ha; exact ha
  | cons b t ih => intro a ha; exact ih (f a b) (h a b ha)

theorem foldl_fix {α β : Type} (f : α → β → α) (h : ∀ a b, f a b = a) :
    ∀ (l : List β) (a : α), l.foldl f a = a := by
  intro l
  induction l with
  | nil => intro a; rfl
  | cons b t ih => intro a; rw [List.foldl_cons, h]; exact ih a

theorem getPixelHSV_zeroFrame (x y : ℤ) :
    Hist.getPixelHSV Hist.zeroFrame x y = { h := 0, s := 0, v := 0 } := by
  simp only [Hist.getPixelHSV, Hist.zeroFrame]
  split
  · rfl
  · norm_num [Hist.rgb565ToHSV, tdivZ, constrainZ]

theorem isSkinTone_black : Hist.isSkinTone { h := 0, s := 0, v := 0 } = false := by
  decide

theorem regionPixelStep_zero_skin (topY2 midY2 : ℤ) (acc : Hist.RegionAcc)
    (x y : ℤ) :
    (Hist.regionPixelStep Hist.zeroFrame topY2 midY2 acc x y).skinPixels =
      acc.skinPixels := by
  simp [Hist.regionPixelStep, getPixelHSV_zeroFrame, isSkinTone_black]

theorem regionScan_zero_skin (x1 y1 x2 y2 : ℤ) :
    (Hist.regionScan Hist.zeroFrame x1 y1 x2 y2).skinPixels = 0 := by
  simp only [Hist.regionScan]
  refine foldl_preserve (fun a : Hist.RegionAcc => a.skinPixels = 0) _ ?_ _ _ rfl
  intro a b ha
  refine foldl_preserve (fun a : Hist.RegionAcc => a.skinPixels = 0) _ ?_ _ _ ha
  intro a x ha
  rw [regionPixelStep_zero_skin]
  exact ha

theorem evaluateCandidate_zeroFrame (fsqrt : ℚ → ℚ) (st : Hist.HT) (x y : ℤ) :
    (Hist.evaluateCandidate fsqrt Hist.zeroFrame st x y).valid = false := by
  simp only [Hist.evaluateCandidate]
  split
  · rfl
  · rw [if_pos]
    · have hz := regionScan_zero_skin (max 0 (x - 15)) (max 0 (y - 15))
        (min 240 (x + 15)) (min 240 (y + 15))
      rw [hz]
      norm_num [Hist.MIN_SKIN_PERCENTAGE]

theorem coarseSearch_zeroFrame (fsqrt : ℚ → ℚ) (st : Hist.HT)
    (scx scy r : ℤ) :
    Hist.coarseSearch fsqrt Hist.zeroFrame st scx scy r =
      { conf := 0, x := scx, y := scy, skin := 0 } := by
  simp only [Hist.coarseSearch]
  refine foldl_fix _ ?_ _ _
  intro a y
  refine foldl_fix _ ?_ _ _
  intro a x
  simp [evaluateCandidate_zeroFrame]

theorem track_collapse_step (fsqrt : ℚ → ℚ) (frame : Hist.Frame)
    (px py : ℤ) (sp : ℚ) (now : ℕ) (st : Hist.HT)
    (h1 : st.signatureValid = true)
    (h2 : st.signaturePixelCount ≠ 0)
    (h3 : now - st.signatureTime ≤ Hist.SIGNATURE_MAX_AGE_MS)
    (h4 : now - st.signatureTime ≤ Hist.SIGNATURE_MIN_AGE_MS ∨
      st.histogramOnlyFrames <
        Hist.getMaxFramesForQuality (Hist.assessQuality fsqrt st))
    (h5 : (Hist.coarseSearch fsqrt frame st (constrainZ px 30 210)
        (constrainZ py 30 210) (Hist.adaptiveSearchRadius sp)).skin <
        Hist.SKIN_COLLAPSE_THRESHOLD) :
    Hist.track fsqrt frame px py sp now st =
      (none, { st with
        searchRadius := Hist.adaptiveSearchRadius sp,
        consecutiveCollapses := st.consecutiveCollapses + 1,
        signatureValid := if st.consecutiveCollapses + 1 ≥ 2 then false
                          else st.signatureValid,
        histogramOnlyFrames := st.histogramOnlyFrames + 1 }) := by
  simp only [Hist.track]
  rw [if_neg (by rw [h1]; simp [h2])]
  rw [if_neg (not_lt.mpr h3)]
  have hqf : (if now - st.signatureTime > Hist.SIGNATURE_MIN_AGE_MS then
      decide (st.histogramOnlyFrames ≥
        Hist.getMaxFramesForQuality (Hist.assessQuality fsqrt st))
      else false) = false := by
    rcases h4 with h | h
    · rw [if_neg (not_lt.mpr h)]
    · by_cases hm : now - st.signatureTime > Hist.SIGNATURE_MIN_AGE_MS
      · rw [if_pos hm]; exact decide_eq_false (not_le.mpr h)
      · rw [if_neg hm]
  rw [if_neg (by rw [hqf]; exact Bool.false_ne_true)]
  rw [if_pos h5]

/-- C5: two consecutive track() calls that reach the coarse search and see
a best-candidate skin share below SKIN_COLLAPSE_THRESHOLD = 0.10 invalidate
the signature: starting from a state with no collapse pending, the second
call fails, leaves signatureValid false, isSignatureValid reports false at
every later time, and every later track() call on an invalid-signature
state fails and changes nothing, until buildSignature installs a new
signature. -/
theorem c5_skin_collapse_invalidates (fsqrt : ℚ → ℚ)
    (frame1 frame2 : Hist.Frame) (px1 py1 px2 py2 : ℤ) (sp1 sp2 : ℚ)
    (now1 now2 : ℕ) (st : Hist.HT)
    (hcc : st.consecutiveCollapses = 0)
    (hg1 : Hist.ReachesCoarse fsqrt st now1)
    (hskin1 : (Hist.coarseSearch fsqrt frame1 st (constrainZ px1 30 210)
        (constrainZ py1 30 210) (Hist.adaptiveSearchRadius sp1)).skin <
        Hist.SKIN_COLLAPSE_THRESHOLD)
    (hAge2 : now2 - st.signatureTime ≤ Hist.SIGNATURE_MAX_AGE_MS)
    (hQ2 : now2 - st.signatureTime ≤ Hist.SIGNATURE_MIN_AGE_MS ∨
      st.histogramOnlyFrames + 1 <
        Hist.getMaxFramesForQuality (Hist.assessQuality fsqrt st))
    (hskin2 : (Hist.coarseSearch fsqrt frame2 st (constrainZ px2 30 210)
        (constrainZ py2 30 210) (Hist.adaptiveSearchRadius sp2)).skin <
        Hist.SKIN_COLLAPSE_THRESHOLD) :
    ((Hist.track fsqrt frame2 px2 py2 sp2 now2
        (Hist.track fsqrt frame1 px1 py1 sp1 now1 st).2).1 = none ∧
     (Hist.track fsqrt frame2 px2 py2 sp2 now2
        (Hist.track fsqrt frame1 px1 py1 sp1 now1 st).2).2.signatureValid =
       false ∧
     ∀ now3 : ℕ, Hist.isSignatureValid now3
        (Hist.track fsqrt frame2 px2 py2 sp2 now2
          (Hist.track fsqrt frame1 px1 py1 sp1 now1 st).2).2 = false) ∧
    (∀ (fsqrt3 : ℚ → ℚ) (frame3 : Hist.Frame) (px3 py3 : ℤ) (sp3 : ℚ)
        (now3 : ℕ) (st3 : Hist.HT), st3.signatureValid = false →
      Hist.track fsqrt3 frame3 px3 py3 sp3 now3 st3 = (none, st3)) := by
  obtain ⟨hV, hC, hAge1, hQ1⟩ := hg1
  have hstep1 := track_collapse_step fsqrt frame1 px1 py1 sp1 now1 st
    hV hC hAge1 hQ1 hskin1
  have hsv1 : ({ st with
      searchRadius := Hist.adaptiveSearchRadius sp1,
      consecutiveCollapses := st.consecutiveCollapses + 1,
      signatureValid := if st.consecutiveCollapses + 1 ≥ 2 then false
                        else st.signatureValid,
      histogramOnlyFrames := st.histogramOnlyFrames + 1 } :
      Hist.HT).signatureValid = true := by
    dsimp only
    rw [hcc]
    rw [if_neg (by norm_num)]
    exact hV
  have hstep2 := track_collapse_step fsqrt frame2 px2 py2 sp2 now2
    { st with
      searchRadius := Hist.adaptiveSearchRadius sp1,
      consecutiveCollapses := st.consecutiveCollapses + 1,
      signatureValid := if st.consecutiveCollapses + 1 ≥ 2 then false
                        else st.signatureValid,
      histogramOnlyFrames := st.histogramOnlyFrames + 1 }
    hsv1 hC hAge2 hQ2 hskin2
  refine ⟨?_, ?_⟩
  · rw [hstep1]
    dsimp only
    rw [hstep2]
    refine ⟨rfl, ?_, ?_⟩
    · dsimp only
      rw [hcc]
      norm_num
    · intro now3
      rw [Hist.isSignatureValid, if_pos (by dsimp only; rw [hcc]; norm_num)]
  · intro fsqrt3 frame3 px3 py3 sp3 now3 st3 h
    rw [Hist.track, if_pos (Or.inl h)]

/-- Witness for C5: on the all-black frame every candidate fails the skin
test, so the coarse search keeps its zero-skin initial best; two such calls
on a fresh valid signature invalidate it, and a further call on the
invalidated state is a failing no-op. -/
theorem c5_skin_collapse_invalidates_witness :
    ((Hist.track Reflex.fsqrtEx Hist.zeroFrame 120 120 0 200
        (Hist.track Reflex.fsqrtEx Hist.zeroFrame 120 120 0 100
          Hist.htValid).2).1 = none ∧
     (Hist.track Reflex.fsqrtEx Hist.zeroFrame 120 120 0 200
        (Hist.track Reflex.fsqrtEx Hist.zeroFrame 120 120 0 100
          Hist.htValid).2).2.signatureValid = false ∧
     Hist.isSignatureValid 300
        (Hist.track Reflex.fsqrtEx Hist.zeroFrame 120 120 0 200
          (Hist.track Reflex.fsqrtEx Hist.zeroFrame 120 120 0 100
            Hist.htValid).2).2 = false) ∧
    Hist.track Reflex.fsqrtEx Hist.zeroFrame 120 120 0 300 Hist.htReset =
      (none, Hist.htReset) := by
  have h := c5_skin_collapse_invalidates Reflex.fsqrtEx Hist.zeroFrame
    Hist.zeroFrame 120 120 120 120 0 0 100 200 Hist.htValid
    (by decide)
    ⟨rfl, by decide, by decide, Or.inl (by decide)⟩
    (by rw [coarseSearch_zeroFrame]; norm_num [Hist.SKIN_COLLAPSE_THRESHOLD])
    (by decide)
    (Or.inl (by decide))
    (by rw [coarseSearch_zeroFrame]; norm_num [Hist.SKIN_COLLAPSE_THRESHOLD])
  exact ⟨⟨h.1.1, h.1.2.1, h.1.2.2 300⟩,
    h.2 Reflex.fsqrtEx Hist.zeroFrame 120 120 0 300 Hist.htReset (by decide)⟩

/-- C9: track() is deterministic.  In the embedding the implicit inputs of
the C code (the millis() clock) are explicit arguments, and track is a pure
function, so two calls with identical frame, predicted position, servo
speed, clock and tracker state return identical results (first conjunct).
Substantively, the returned position and confidence depend only on the
frame, the arguments and the signature/history/timing fields: they are
independent of every field a track() call itself scribbles on as scratch —
centerX/centerY, searchRadius, consecutiveStableFrames,
consecutiveCollapses, lastMatchX/lastMatchY, lastConfidence and
textureVariance (second conjunct). -/
theorem c9_track_deterministic (fsqrt : ℚ → ℚ) (frame : Hist.Frame)
    (px py : ℤ) (sp : ℚ) (now : ℕ) (st : Hist.HT)
    (cX cY sR csf cc lmx lmy : ℤ) (lc tv : ℚ) :
    Hist.track fsqrt frame px py sp now st =
      Hist.track fsqrt frame px py sp now st ∧
    (Hist.track fsqrt frame px py sp now
      { st with centerX := cX, centerY := cY, searchRadius := sR,
                consecutiveStableFrames := csf, consecutiveCollapses := cc,
                lastMatchX := lmx, lastMatchY := lmy, lastConfidence := lc,
                textureVariance := tv }).1 =
      (Hist.track fsqrt frame px py sp now st).1 := by
  refine ⟨rfl, ?_⟩
  have hA : Hist.assessQuality fsqrt
      { st with centerX := cX, centerY := cY, searchRadius := sR,
                consecutiveStableFrames := csf, consecutiveCollapses := cc,
                lastMatchX := lmx, lastMatchY := lmy, lastConfidence := lc,
                textureVariance := tv } = Hist.assessQuality fsqrt st := rfl
  have hC : ∀ scx scy r : ℤ, Hist.coarseSearch fsqrt frame
      { st with centerX := cX, centerY := cY, searchRadius := sR,
                consecutiveStableFrames := csf, consecutiveCollapses := cc,
                lastMatchX := lmx, lastMatchY := lmy, lastConfidence := lc,
                textureVariance := tv } scx scy r =
      Hist.coarseSearch fsqrt frame st scx scy r := fun _ _ _ => rfl
  have hF : ∀ c : Hist.BestAcc, Hist.fineSearch fsqrt frame
      { st with centerX := cX, centerY := cY, searchRadius := sR,
                consecutiveStableFrames := csf, consecutiveCollapses := cc,
                lastMatchX := lmx, lastMatchY := lmy, lastConfidence := lc,
                textureVariance := tv } c =
      Hist.fineSearch fsqrt frame st c := fun _ => rfl
  simp only [Hist.track, hA, hC, hF, apply_ite Prod.fst]

/-- C10: every pixel read goes through getPixelHSV, which (a) yields
h = s = v = 0 for any coordinate outside [0,240) x [0,240) without touching
the frame, (b) for in-range coordinates touches only byte indices
(y*240+x)*2 and (y*240+x)*2+1, both below the 240*240*2-byte extent, and
(c) consequently buildSignature, track, evaluateCandidate,
calculateCoherence and calculateTextureVariance — for every bounding box,
predicted position and state, in range or not — depend on the frame only
through its first 240*240*2 bytes: frames agreeing there give identical
results. -/
theorem c10_pixel_reads_bounded :
    (∀ (frame : Hist.Frame) (x y : ℤ),
      x < 0 ∨ x ≥ 240 ∨ y < 0 ∨ y ≥ 240 →
      Hist.getPixelHSV frame x y = { h := 0, s := 0, v := 0 }) ∧
    (∀ x y : ℤ, ¬(x < 0 ∨ x ≥ 240 ∨ y < 0 ∨ y ≥ 240) →
      (y.toNat * 240 + x.toNat) * 2 + 1 < 240 * 240 * 2) ∧
    (∀ (f g : Hist.Frame), Hist.FrameAgree f g →
      ∀ (fsqrt : ℚ → ℚ) (px py : ℤ) (sp : ℚ) (now : ℕ) (st : Hist.HT)
        (x y fx fy fw fh cx cy radius : ℤ),
      Hist.track fsqrt f px py sp now st =
        Hist.track fsqrt g px py sp now st ∧
      Hist.buildSignature f fx fy fw fh now st =
        Hist.buildSignature g fx fy fw fh now st ∧
      Hist.evaluateCandidate fsqrt f st x y =
        Hist.evaluateCandidate fsqrt g st x y ∧
      Hist.calculateCoherence f cx cy radius =
        Hist.calculateCoherence g cx cy radius ∧
      Hist.calculateTextureVariance f cx cy radius =
        Hist.calculateTextureVariance g cx cy radius) := by
  refine ⟨?_, ?_, ?_⟩
  · intro frame x y h
    rw [Hist.getPixelHSV, if_pos h]
  · intro x y h
    push_neg at h
    omega
  · intro f g hfg fsqrt px py sp now st x y fx fy fw fh cx cy radius
    have hG : ∀ x y : ℤ, Hist.getPixelHSV f x y = Hist.getPixelHSV g x y := by
      intro x y
      simp only [Hist.getPixelHSV]
      split
      next h => rfl
      next h =>
        push_neg at h
        rw [hfg ((y.toNat * 240 + x.toNat) * 2) (by omega),
            hfg ((y.toNat * 240 + x.toNat) * 2 + 1) (by omega)]
    have hPS : ∀ (t m : ℤ) (acc : Hist.RegionAcc) (x y : ℤ),
        Hist.regionPixelStep f t m acc x y =
          Hist.regionPixelStep g t m acc x y := by
      intro t m acc x y
      simp only [Hist.regionPixelStep, hG]
    have hRS : ∀ a b c d : ℤ,
        Hist.regionScan f a b c d = Hist.regionScan g a b c d := by
      intro a b c d
      simp only [Hist.regionScan, hPS]
    have hEC : ∀ (st2 : Hist.HT) (a b : ℤ),
        Hist.evaluateCandidate fsqrt f st2 a b =
          Hist.evaluateCandidate fsqrt g st2 a b := by
      intro st2 a b
      simp only [Hist.evaluateCandidate, hRS]
    have hCoh : ∀ a b r : ℤ,
        Hist.calculateCoherence f a b r = Hist.calculateCoherence g a b r := by
      intro a b r
      simp only [Hist.calculateCoherence, hG]
    have hTV : ∀ a b r : ℤ,
        Hist.calculateTextureVariance f a b r =
          Hist.calculateTextureVariance g a b r := by
      intro a b r
      simp only [Hist.calculateTextureVariance, hG]
    have hCS : ∀ a b r : ℤ,
        Hist.coarseSearch fsqrt f st a b r =
          Hist.coarseSearch fsqrt g st a b r := by
      intro a b r
      simp only [Hist.coarseSearch, hEC]
    have hFS : ∀ c : Hist.BestAcc,
        Hist.fineSearch fsqrt f st c = Hist.fineSearch fsqrt g st c := by
      intro c
      simp only [Hist.fineSearch, hEC]
    refine ⟨?_, ?_, hEC st x y, hCoh cx cy radius, hTV cx cy radius⟩
    · simp only [Hist.track, hCS, hFS, hCoh]
    · simp only [Hist.buildSignature, hRS, hTV]

/-- Witness for C10: the out-of-range read at (-1, 0) yields black; the
largest in-range coordinate touches byte 115199 of the 115200-byte extent;
and track and buildSignature give identical results on the all-zero frame
and on a frame that differs from it everywhere beyond the extent. -/
theorem c10_pixel_reads_bounded_witness :
    Hist.getPixelHSV Hist.zeroFrame (-1) 0 = { h := 0, s := 0, v := 0 } ∧
    (((239 : ℤ).toNat * 240 + (239 : ℤ).toNat) * 2 + 1 < 240 * 240 * 2) ∧
    Hist.track Reflex.fsqrtEx Hist.zeroFrame 120 120 0 100 Hist.htValid =
      Hist.track Reflex.fsqrtEx Hist.altFrame 120 120 0 100 Hist.htValid ∧
    Hist.buildSignature Hist.zeroFrame 120 120 40 40 100 Hist.htValid =
      Hist.buildSignature Hist.altFrame 120 120 40 40 100 Hist.htValid := by
  have hag : Hist.FrameAgree Hist.zeroFrame Hist.altFrame := fun i hi => by
    simp [Hist.zeroFrame, Hist.altFrame, hi]
  have h3 := c10_pixel_reads_bounded.2.2 Hist.zeroFrame Hist.altFrame hag
    Reflex.fsqrtEx 120 120 0 100 Hist.htValid 100 100 120 120 40 40 120 120 15
  exact ⟨c10_pixel_reads_bounded.1 Hist.zeroFrame (-1) 0 (Or.inl (by norm_num)),
    c10_pixel_reads_bounded.2.1 239 239 (by decide), h3.1, h3.2.1⟩
